import Mathlib

/-!
Shallow embedding of the timeline style-resolution and layout engine
(`go-timeline`).  Go `float64` values are modelled as elements of a
`LinearOrderedField` `α` (instantiated at `ℚ` for executable witnesses and at
`ℝ` where the axis walk needs trigonometry); Go `int` is modelled as `ℤ`;
Go pointer fields (`*T`, nil meaning "not specified") are modelled as
`Option`.  Each definition mirrors the Go function of the same name.
-/

namespace Timeline

/-! ## Pointer-or-default helpers (part_001, `getString`/`getInt`/`getFloat64`/`getBool`) -/

def getString (ptr : Option String) (def_ : String) : String :=
  match ptr with
  | some s => s
  | none => def_

def getInt (ptr : Option Int) (def_ : Int) : Int :=
  match ptr with
  | some n => n
  | none => def_

def getFloat64 {α : Type} (ptr : Option α) (def_ : α) : α :=
  match ptr with
  | some x => x
  | none => def_

def getBool (ptr : Option Bool) (def_ : Bool) : Bool :=
  match ptr with
  | some b => b
  | none => def_

/-! ## Data model (part_000, models) -/

structure LayoutOptions (α : Type) where
  Padding : α
  EntrySpacing : α
  ConnectorLength : α

structure JunctionMarkerStyle (α : Type) where
  Shape : String
  Size : α
  Color : Option String

structure TitleLineStyle (α : Type) where
  Visible : Bool
  Color : String
  Width : α
  Length : α
  Margin : α

structure FontStyle where
  FontFamily : String
  FontSize : Int
  FontWeight : String
  FontStyle : String

structure CenterLine (α : Type) where
  Width : Int
  Type' : String
  Orientation : String
  Angle : Option α
  Color : String
  RoundedCaps : Bool

structure YearTextStyle (α : Type) where
  Position : String
  MainAxisOffset : α
  CrossAxisOffset : α
  TextColor : String
  Font : FontStyle
  Shape : String
  FillColor : String
  BorderColor : String
  BorderWidth : α

structure DotStyle where
  Size : Int
  Color : String
  Shape : String
  Visible : Bool
  OffsetMain : Int
  OffsetCross : Int
  StopAtDot : Bool

structure ConnectorStyle where
  DrawToPeriod : Option Bool
  DrawToComment : Option Bool
  Width : Int
  Color : String
  LineType : String
  Side : String
  Dot : DotStyle

structure CommentTextStyle (α : Type) where
  Position : String
  MainAxisOffset : α
  CrossAxisOffset : α
  Font : FontStyle
  TitleFont : FontStyle
  TitleLine : TitleLineStyle α
  TitleColor : String
  Shape : String
  FillColor : String
  TextColor : String
  Padding : String
  BlockWidth : Option α
  BorderColor : String
  BorderWidth : Int
  BorderStyle : String
  TextAlign : String

structure CenterlineProjectionStyle where
  Color : String

structure PeriodStyle (α : Type) where
  YearText : YearTextStyle α
  Connector : ConnectorStyle
  CommentText : CommentTextStyle α
  CenterlineProjection : CenterlineProjectionStyle
  JunctionMarker : JunctionMarkerStyle α

structure Template (α : Type) where
  CenterLine : CenterLine α
  Layout : LayoutOptions α
  GlobalFont : Option FontStyle
  PeriodDefaults : PeriodStyle α

/-! ### Override structs (each field independently optional) -/

structure FontStyleOverride where
  FontFamily : Option String
  FontSize : Option Int
  FontWeight : Option String
  FontStyle : Option String

structure YearTextStyleOverride (α : Type) where
  Position : Option String
  MainAxisOffset : Option α
  CrossAxisOffset : Option α
  Font : Option FontStyleOverride
  TextColor : Option String
  Shape : Option String
  FillColor : Option String
  BorderColor : Option String
  BorderWidth : Option α

structure TitleLineStyleOverride (α : Type) where
  Visible : Option Bool
  Color : Option String
  Width : Option α
  Length : Option α
  Margin : Option α

structure CommentTextStyleOverride (α : Type) where
  Position : Option String
  MainAxisOffset : Option α
  CrossAxisOffset : Option α
  Font : Option FontStyleOverride
  TitleFont : Option FontStyleOverride
  TitleLine : Option (TitleLineStyleOverride α)
  TitleColor : Option String
  Shape : Option String
  FillColor : Option String
  TextColor : Option String
  Padding : Option String
  BlockWidth : Option α
  BorderColor : Option String
  BorderWidth : Option Int
  BorderStyle : Option String
  TextAlign : Option String

structure JunctionMarkerOverride (α : Type) where
  Shape : Option String
  Size : Option α
  Color : Option String

structure DotStyleOverride where
  Size : Option Int
  Color : Option String
  Shape : Option String
  Visible : Option Bool
  OffsetMain : Option Int
  OffsetCross : Option Int
  StopAtDot : Option Bool

structure ConnectorStyleOverride where
  Color : Option String
  LineType : Option String
  Width : Option Int
  DrawToPeriod : Option Bool
  DrawToComment : Option Bool
  Dot : Option DotStyleOverride

structure TimelineEntry (α : Type) where
  Period : String
  TitleText : String
  CommentText : String
  CommentImage : String
  Link : String
  EntrySpacingOverride : Option α
  OrientationOverride : Option String
  AngleOverride : Option α
  ConnectorOverride : Option ConnectorStyleOverride
  CommentTextOverride : Option (CommentTextStyleOverride α)
  YearTextOverride : Option (YearTextStyleOverride α)
  CenterlineProjectionOverride : Option CenterlineProjectionStyle
  JunctionMarkerOverride : Option (JunctionMarkerOverride α)

/-! ## Constants (part_003) -/

def defaultFontSize : Int := 12

def defaultFont : String := "Arial, sans-serif"

/-! ## Style resolvers (part_001) -/

def getEffectiveJunctionMarkerStyle {α : Type} (defaults : JunctionMarkerStyle α)
    (override : Option (JunctionMarkerOverride α)) : JunctionMarkerStyle α :=
  match override with
  | none => defaults
  | some ov =>
    { defaults with
      Shape := getString ov.Shape defaults.Shape
      Size := getFloat64 ov.Size defaults.Size
      Color := match ov.Color with
        | some c => some c
        | none => defaults.Color }

def getEffectiveTitleLineStyle {α : Type} [LinearOrderedField α]
    (defaults : TitleLineStyle α) (override : Option (TitleLineStyleOverride α)) :
    TitleLineStyle α :=
  match override with
  | none => defaults
  | some ov =>
    let effective : TitleLineStyle α :=
      { Visible := getBool ov.Visible defaults.Visible
        Color := getString ov.Color defaults.Color
        Width := getFloat64 ov.Width defaults.Width
        Length := getFloat64 ov.Length defaults.Length
        Margin := getFloat64 ov.Margin defaults.Margin }
    -- re-evaluate visibility based on dimensions if not explicitly set by override
    match ov.Visible with
    | some _ => effective
    | none =>
      if 0 < effective.Width ∧ 0 < effective.Length then
        { effective with Visible := true }
      else if defaults.Visible then
        { effective with Visible := true }
      else
        { effective with Visible := false }

def getEffectiveDotStyle (defaults : DotStyle) (override : Option DotStyleOverride) :
    DotStyle :=
  match override with
  | none => defaults
  | some ov =>
    { Size := getInt ov.Size defaults.Size
      Color := getString ov.Color defaults.Color
      Shape := getString ov.Shape defaults.Shape
      Visible := getBool ov.Visible true
      OffsetMain := getInt ov.OffsetMain defaults.OffsetMain
      OffsetCross := getInt ov.OffsetCross defaults.OffsetCross
      -- default stop_at_dot to true if not overridden
      StopAtDot := getBool ov.StopAtDot true }

def getEffectiveConnectorStyle (defaults : ConnectorStyle)
    (override : Option ConnectorStyleOverride) : ConnectorStyle :=
  match override with
  | none => defaults
  | some ov =>
    let defaultDrawToPeriod := match defaults.DrawToPeriod with
      | some b => b
      | none => true
    let defaultDrawToComment := match defaults.DrawToComment with
      | some b => b
      | none => true
    { DrawToPeriod := some (getBool ov.DrawToPeriod defaultDrawToPeriod)
      DrawToComment := some (getBool ov.DrawToComment defaultDrawToComment)
      Width := getInt ov.Width defaults.Width
      Color := getString ov.Color defaults.Color
      LineType := getString ov.LineType defaults.LineType
      Side := defaults.Side
      Dot := getEffectiveDotStyle defaults.Dot ov.Dot }

def getEffectiveFontStyle (global : Option FontStyle) (defaults : FontStyle)
    (override : Option FontStyleOverride) : FontStyle :=
  -- apply global defaults if base values are zero/empty
  let base1 : FontStyle :=
    match global with
    | none => defaults
    | some g =>
      { FontFamily := if defaults.FontFamily = "" then g.FontFamily else defaults.FontFamily
        FontSize := if defaults.FontSize = 0 then g.FontSize else defaults.FontSize
        FontWeight := if defaults.FontWeight = "" then g.FontWeight else defaults.FontWeight
        FontStyle := if defaults.FontStyle = "" then g.FontStyle else defaults.FontStyle }
  -- apply hardcoded defaults if still zero/empty
  let base : FontStyle :=
    { FontFamily := if base1.FontFamily = "" then defaultFont else base1.FontFamily
      FontSize := if base1.FontSize = 0 then defaultFontSize else base1.FontSize
      FontWeight := if base1.FontWeight = "" then "normal" else base1.FontWeight
      FontStyle := if base1.FontStyle = "" then "normal" else base1.FontStyle }
  -- apply override if provided
  let effective : FontStyle :=
    match override with
    | none => base
    | some ov =>
      { FontFamily := getString ov.FontFamily base.FontFamily
        FontSize := getInt ov.FontSize base.FontSize
        FontWeight := getString ov.FontWeight base.FontWeight
        FontStyle := getString ov.FontStyle base.FontStyle }
  -- final fallback if font family is still empty
  if effective.FontFamily = "" then { effective with FontFamily := "sans-serif" }
  else effective

def getEffectiveCommentTextStyle {α : Type} [LinearOrderedField α]
    (globalFont : Option FontStyle) (defaults : CommentTextStyle α)
    (override : Option (CommentTextStyleOverride α)) : CommentTextStyle α :=
  let step : CommentTextStyle α :=
    match override with
    | none => defaults
    | some ov =>
      { defaults with
        Position := getString ov.Position defaults.Position
        MainAxisOffset := getFloat64 ov.MainAxisOffset defaults.MainAxisOffset
        CrossAxisOffset := getFloat64 ov.CrossAxisOffset defaults.CrossAxisOffset
        TitleColor := getString ov.TitleColor defaults.TitleColor
        Shape := getString ov.Shape defaults.Shape
        FillColor := getString ov.FillColor defaults.FillColor
        TextColor := getString ov.TextColor defaults.TextColor
        Padding := getString ov.Padding defaults.Padding
        BlockWidth := ov.BlockWidth
        BorderColor := getString ov.BorderColor defaults.BorderColor
        BorderWidth := getInt ov.BorderWidth defaults.BorderWidth
        BorderStyle := getString ov.BorderStyle defaults.BorderStyle
        TextAlign := getString ov.TextAlign defaults.TextAlign }
  let bodyFontOverride := match override with
    | none => none
    | some ov => ov.Font
  let titleFontOverride := match override with
    | none => none
    | some ov => ov.TitleFont
  let titleLineOverride := match override with
    | none => none
    | some ov => ov.TitleLine
  -- merge BlockWidth (if override did not set it, keep the default pointer)
  let step2 := match step.BlockWidth with
    | none => { step with BlockWidth := defaults.BlockWidth }
    | some _ => step
  { step2 with
    Font := getEffectiveFontStyle globalFont defaults.Font bodyFontOverride
    TitleFont := getEffectiveFontStyle globalFont defaults.TitleFont titleFontOverride
    TitleLine := getEffectiveTitleLineStyle defaults.TitleLine titleLineOverride }

def getEffectiveYearTextStyle {α : Type} (globalFont : Option FontStyle)
    (defaults : YearTextStyle α) (override : Option (YearTextStyleOverride α)) :
    YearTextStyle α :=
  let step : YearTextStyle α :=
    match override with
    | none => defaults
    | some ov =>
      { defaults with
        Position := getString ov.Position defaults.Position
        MainAxisOffset := getFloat64 ov.MainAxisOffset defaults.MainAxisOffset
        CrossAxisOffset := getFloat64 ov.CrossAxisOffset defaults.CrossAxisOffset
        TextColor := getString ov.TextColor defaults.TextColor
        Shape := getString ov.Shape defaults.Shape
        FillColor := getString ov.FillColor defaults.FillColor
        BorderColor := getString ov.BorderColor defaults.BorderColor
        BorderWidth := getFloat64 ov.BorderWidth defaults.BorderWidth }
  let fontOverride := match override with
    | none => none
    | some ov => ov.Font
  { step with Font := getEffectiveFontStyle globalFont defaults.Font fontOverride }

def getEffectiveCenterlineProjectionStyle (defaults : CenterlineProjectionStyle)
    (override : Option CenterlineProjectionStyle) : CenterlineProjectionStyle :=
  match override with
  | none => defaults
  | some ov => if ov.Color = "" then defaults else { defaults with Color := ov.Color }

/-! ## Text dimension estimation helpers (part_001) -/

def getEstimatedHeight {α : Type} [LinearOrderedField α] (font : FontStyle) : α :=
  if font.FontSize ≤ 0 then 15 else (font.FontSize : α) * (12 / 10)

def estimateTextSVGWidth {α : Type} [LinearOrderedField α] (text : String)
    (font : FontStyle) : α :=
  if font.FontSize ≤ 0 ∨ text = "" then 0
  else (text.length : α) * (font.FontSize : α) * (6 / 10)

/-! ## Numeric string parsing

Models Go `strconv.ParseFloat` on plain decimal literals (optional sign,
digits, optional fractional part); everything else fails, as the source only
ever feeds it whitespace-trimmed tokens. -/

def digitsVal (cs : List Char) : ℚ :=
  cs.foldl (fun acc c => acc * 10 + ((c.toNat - '0'.toNat : ℕ) : ℚ)) 0

def parseGoFloat (s : String) : Option ℚ :=
  let cs := s.data
  let signed : ℚ × List Char :=
    match cs with
    | '-' :: rest => (-1, rest)
    | '+' :: rest => (1, rest)
    | rest => (1, rest)
  let sign := signed.1
  let intPart := signed.2.takeWhile Char.isDigit
  let rest := signed.2.dropWhile Char.isDigit
  match rest with
  | [] =>
    if intPart = [] then none
    else some (sign * digitsVal intPart)
  | '.' :: frac =>
    if frac.all Char.isDigit ∧ (intPart ≠ [] ∨ frac ≠ []) then
      some (sign * (digitsVal intPart + digitsVal frac / 10 ^ frac.length))
    else none
  | _ => none

/-- Split a character list at every character satisfying `p` (separators are
dropped; empty pieces are kept), as Go `strings.Split`/`strings.FieldsFunc`
machinery does.  Structural recursion so that proofs can evaluate it. -/
def splitOnPList (p : Char → Bool) : List Char → List (List Char)
  | [] => [[]]
  | c :: rest =>
    let r := splitOnPList p rest
    if p c then [] :: r
    else
      match r with
      | h :: t => (c :: h) :: t
      | [] => [[c]]

/-- Go `strings.SplitN(s, sep, 2)` for a one-character separator: split at the
first occurrence only. -/
def splitN2 (sep : Char) (cs : List Char) : List (List Char) :=
  let pre := cs.takeWhile (fun c => c ≠ sep)
  match cs.dropWhile (fun c => c ≠ sep) with
  | [] => [pre]
  | _ :: tl => [pre, tl]

/-- Go `strings.TrimSpace`. -/
def goTrim (s : String) : String :=
  String.mk ((((s.data.dropWhile Char.isWhitespace).reverse).dropWhile
    Char.isWhitespace).reverse)

/-- Go `strings.ToLower` (ASCII, which is all the source feeds it). -/
def goToLower (s : String) : String :=
  String.mk (s.data.map Char.toLower)

/-- Go `strings.Fields`: split around runs of whitespace. -/
def goFields (s : String) : List String :=
  ((splitOnPList Char.isWhitespace s.data).map String.mk).filter (fun t => t ≠ "")

/-! ## parsePadding (part_001) -/

/-- The token loop of `parsePadding`: each whitespace-separated token parsed
as a float, invalid tokens defaulting to 0. -/
def paddingTokenValues (paddingStr : String) : List ℚ :=
  (goFields paddingStr).map (fun part =>
    match parseGoFloat part with
    | none => (0 : ℚ)   -- default invalid parts to 0
    | some v => v)

def parsePadding (paddingStr : String) : ℚ × ℚ × ℚ × ℚ :=
  if paddingStr = "" then (0, 0, 0, 0)
  else
    match paddingTokenValues paddingStr with
    | [a] => (a, a, a, a)
    | [a, b] => (a, b, a, b)
    | [a, b, c] => (a, b, c, b)
    | [a, b, c, d] => (a, b, c, d)
    | a :: b :: c :: d :: _ :: _ => (a, b, c, d)   -- use first 4 if too many
    | [] => (0, 0, 0, 0)

/-! ## parseShapeString (part_001)

Go returns `(shapeType, params, error)`; the error is modelled by an
inductive tag mirroring each `fmt.Errorf` site, and the `map[string]float64`
by an association list with overwrite-on-insert semantics. -/

inductive ShapeErr where
  | emptyShapeType
  | invalidParamFormat (part : String)
  | invalidNumericValue (key val : String)
  | missingParam (key shape : String)
deriving DecidableEq, Repr

def paramsInsert (params : List (String × ℚ)) (key : String) (v : ℚ) :
    List (String × ℚ) :=
  if params.any (fun p => p.1 = key) then
    params.map (fun p => if p.1 = key then (key, v) else p)
  else params ++ [(key, v)]

def paramsLookup (params : List (String × ℚ)) (key : String) : Option ℚ :=
  match params.find? (fun p => p.1 = key) with
  | some p => some p.2
  | none => none

/-- The parameter loop in `parseShapeString`: processes `parts[1:]`, stopping
with an error exactly where the Go loop returns one. -/
def parseShapeParams (shapeType : String) :
    List String → List (String × ℚ) → List (String × ℚ) × Option ShapeErr
  | [], params => (params, none)
  | part :: rest, params =>
    match (splitN2 '=' part.data).map String.mk with
    | [k, v] =>
      let key := goToLower (goTrim k)
      let valStr := goTrim v
      if key = "r" ∧ goToLower valStr = "auto" then
        parseShapeParams shapeType rest (paramsInsert params key (-1))
      else
        match parseGoFloat valStr with
        | none => (params, some (ShapeErr.invalidNumericValue key valStr))
        | some val => parseShapeParams shapeType rest (paramsInsert params key val)
    | _ => (params, some (ShapeErr.invalidParamFormat part))

def parseShapeString (shapeStr : String) :
    String × List (String × ℚ) × Option ShapeErr :=
  if shapeStr = "" ∨ shapeStr = "none" then ("none", [], none)
  else
    let parts := (splitOnPList (fun c => c = ';') shapeStr.data).map String.mk
    let shapeType := goToLower (goTrim (parts.headD ""))
    if shapeType = "" then ("none", [], some ShapeErr.emptyShapeType)
    else
      let loop := parseShapeParams shapeType parts.tail []
      match loop.2 with
      | some e => (shapeType, loop.1, some e)
      | none =>
        let params := loop.1
        -- validate required parameters for known shapes
        if shapeType = "circle" then
          match paramsLookup params "r" with
          | none => (shapeType, params, some (ShapeErr.missingParam "r" "circle"))
          | some _ => (shapeType, params, none)
        else if shapeType = "rectangle" then
          match paramsLookup params "w" with
          | none => (shapeType, params, some (ShapeErr.missingParam "w" "rectangle"))
          | some _ =>
            match paramsLookup params "h" with
            | none => (shapeType, params, some (ShapeErr.missingParam "h" "rectangle"))
            | some _ => (shapeType, params, none)
        else (shapeType, params, none)

/-! ## Bounds tracker (part_003, `bounds`, `updatePoint`, `updateRect`) -/

structure Bounds (α : Type) where
  minX : α
  maxX : α
  minY : α
  maxY : α
  isSet : Bool

def Bounds.updatePoint {α : Type} [LinearOrderedField α] (b : Bounds α) (x y : α) :
    Bounds α :=
  if !b.isSet then
    { minX := x, maxX := x, minY := y, maxY := y, isSet := true }
  else
    { minX := min b.minX x, maxX := max b.maxX x
      minY := min b.minY y, maxY := max b.maxY y, isSet := true }

def Bounds.updateRect {α : Type} [LinearOrderedField α] (b : Bounds α)
    (x y width height : α) : Bounds α :=
  if 0 < width ∧ 0 < height then
    (b.updatePoint x y).updatePoint (x + width) (y + height)
  else b

/-- One call into the bounds accumulator: either `updatePoint` or `updateRect`. -/
inductive BoundsUpdate (α : Type) where
  | point (x y : α)
  | rect (x y w h : α)

def applyBoundsUpdate {α : Type} [LinearOrderedField α] (b : Bounds α) :
    BoundsUpdate α → Bounds α
  | .point x y => b.updatePoint x y
  | .rect x y w h => b.updateRect x y w h

/-! ## Layout configuration (part_003, `initializeLayoutConfig`) -/

structure LayoutConfig (α : Type) where
  layoutPadding : α
  defaultEntrySpacing : α
  defaultConnectorLength : α
  centerLineBaseColor : String
  centerLineWidth : α
  centerLineIsRounded : Bool

def initializeLayoutConfig {α : Type} [LinearOrderedField α] (template : Template α) :
    LayoutConfig α :=
  { layoutPadding := if template.Layout.Padding ≤ 0 then 50 else template.Layout.Padding
    defaultEntrySpacing :=
      if template.Layout.EntrySpacing ≤ 0 then 150 else template.Layout.EntrySpacing
    defaultConnectorLength :=
      if template.Layout.ConnectorLength ≤ 0 then 50 else template.Layout.ConnectorLength
    centerLineBaseColor :=
      if template.CenterLine.Color = "" then "#000000" else template.CenterLine.Color
    centerLineWidth :=
      if (template.CenterLine.Width : α) ≤ 0 then 2 else (template.CenterLine.Width : α)
    centerLineIsRounded := template.CenterLine.RoundedCaps }

/-! ## Positions and styles (part_003, `calculateTimelinePositionsAndStyles`) -/

/-- The spacing attributed to one entry: the override when present, replaced by
the template default whenever the result is not positive. -/
def resolveEntrySpacing {α : Type} [LinearOrderedField α] (config : LayoutConfig α)
    (entry : TimelineEntry α) : α :=
  let spacing := match entry.EntrySpacingOverride with
    | some v => v
    | none => config.defaultEntrySpacing
  if spacing ≤ 0 then config.defaultEntrySpacing else spacing

/-- The position loop of `calculateTimelinePositionsAndStyles`: starting from
`pos`, returns (junction offsets including the trailing one, entry midpoint
offsets). -/
def junctionEntryPoints {α : Type} [LinearOrderedField α] (config : LayoutConfig α) :
    List (TimelineEntry α) → α → List α × List α
  | [], pos => ([pos], [])
  | e :: rest, pos =>
    let spacing := resolveEntrySpacing config e
    let r := junctionEntryPoints config rest (pos + spacing)
    (pos :: r.1, (pos + spacing / 2) :: r.2)

structure TimelinePositionData (α : Type) where
  entryPoints : List α
  junctionPoints : List α
  segmentColors : List String
  markerStyles : List (JunctionMarkerStyle α)
  connectorStyles : List ConnectorStyle
  yearStyles : List (YearTextStyle α)
  commentStyles : List (CommentTextStyle α)

def calculateTimelinePositionsAndStyles {α : Type} [LinearOrderedField α]
    (entries : List (TimelineEntry α)) (template : Template α)
    (config : LayoutConfig α) : TimelinePositionData α :=
  let points := junctionEntryPoints config entries 0
  { entryPoints := points.2
    junctionPoints := points.1
    segmentColors := entries.map (fun e =>
      let c := (getEffectiveCenterlineProjectionStyle
        template.PeriodDefaults.CenterlineProjection e.CenterlineProjectionOverride).Color
      if c = "" then config.centerLineBaseColor else c)
    markerStyles := entries.map (fun e =>
      getEffectiveJunctionMarkerStyle template.PeriodDefaults.JunctionMarker
        e.JunctionMarkerOverride)
    connectorStyles := entries.map (fun e =>
      getEffectiveConnectorStyle template.PeriodDefaults.Connector e.ConnectorOverride)
    yearStyles := entries.map (fun e =>
      getEffectiveYearTextStyle template.GlobalFont template.PeriodDefaults.YearText
        e.YearTextOverride)
    commentStyles := entries.map (fun e =>
      getEffectiveCommentTextStyle template.GlobalFont template.PeriodDefaults.CommentText
        e.CommentTextOverride) }

/-! ## Drawing primitives

The Go code writes SVG markup into a buffer; the embedding records each
emitted graphic element as a `Prim`.  Connector primitives are tagged with
the call site (`period` connector vs `comment` connector), which in the
source is implicit in which `drawConnector` call produced them. -/

inductive ConnTarget where
  | period
  | comment
deriving DecidableEq, Repr

inductive Prim (α : Type) where
  | axisSegment (x1 y1 x2 y2 : α) (color : String) (width : α) (lineType : String)
      (roundedCaps : Bool)
  | markerPolygon (p1 p2 p3 : α × α) (color : String)
  | markerCircle (cx cy r : α) (color : String)
  | connectorSegment (target : ConnTarget) (x1 y1 x2 y2 : α) (color : String) (width : α)
  | connectorDotCircle (target : ConnTarget) (cx cy r : α) (color : String)
  | connectorDotSquare (target : ConnTarget) (x y w h : α) (color : String)
  | connectorDotArrow (target : ConnTarget) (p1 p2 tip : α × α) (color : String)
  | yearShapeCircle (cx cy r : α) (fill stroke : String) (strokeWidth : α)
  | yearShapeRect (x y w h : α) (fill stroke : String) (strokeWidth : α)
  | yearText (x y : α) (text : String) (font : FontStyle) (color : String)
  | commentBackground (x y w h : α) (fill stroke : String)
  | commentTitleText (x y : α) (text : String) (font : FontStyle) (color : String)
  | commentTitleRule (x1 x2 y : α) (color : String) (width : α)
  | commentBody (x y w h : α) (bodyText imageURL : String)

/-- Primitives that belong to the comment side of an entry: the comment block
itself and the axis-to-comment connector (segments and dot). -/
def Prim.isCommentSide {α : Type} : Prim α → Bool
  | .connectorSegment .comment _ _ _ _ _ _ => true
  | .connectorDotCircle .comment _ _ _ _ => true
  | .connectorDotSquare .comment _ _ _ _ _ => true
  | .connectorDotArrow .comment _ _ _ _ => true
  | .commentBackground _ _ _ _ _ _ => true
  | .commentTitleText _ _ _ _ _ => true
  | .commentTitleRule _ _ _ _ _ => true
  | .commentBody _ _ _ _ _ _ => true
  | _ => false

/-! ## Connector routing (part_003) -/

structure ConnectorParams (α : Type) where
  X1 : α
  Y1 : α
  X2 : α
  Y2 : α
  Style : ConnectorStyle
  SegmentColor : String
  IsHorizontal : Bool
  CrossAxisDir : α
  LineIsVisible : Bool
  ElementCrossOffset : α

def calculateConnectorStyleAttributes {α : Type} [LinearOrderedField α]
    (style : ConnectorStyle) (segmentColor : String) : String × α :=
  let connDrawColor := if style.Color = "" then segmentColor else style.Color
  let connDrawWidth : α := if (style.Width : α) ≤ 0 then 1 else (style.Width : α)
  (connDrawColor, connDrawWidth)

/-- Direction vectors from the axis point `(x2, y2)` toward the element point
`(x1, y1)`.  `sqrt` stands for Go `math.Sqrt`. -/
def calculateConnectorVectors {α : Type} [LinearOrderedField α] (sqrt : α → α)
    (x1 y1 x2 y2 : α) : α × α × α × α × α :=
  let dx := x1 - x2
  let dy := y1 - y2
  let lineLen := sqrt (dx * dx + dy * dy)
  if 1 / 1000 < lineLen then
    (dx / lineLen, dy / lineLen, -(dy / lineLen), dx / lineLen, lineLen)
  else
    (1, 0, 0, 1, lineLen)

def calculateConnectorDotPosition {α : Type} [LinearOrderedField α]
    (axisX axisY ux uy nx ny : α) (dotStyle : DotStyle) : α × α :=
  let offsetMain : α := (dotStyle.OffsetMain : α)
  let offsetCross : α := (dotStyle.OffsetCross : α)
  (axisX + ux * offsetMain + nx * offsetCross, axisY + uy * offsetMain + ny * offsetCross)

/-- `drawConnectorLineSegments` (part_003 lines 754-829): the connector line
segments actually emitted, given the original connector parameters and the
pre-computed dot position. -/
def drawConnectorLineSegments {α : Type} [LinearOrderedField α] (target : ConnTarget)
    (connParams : ConnectorParams α) (dotX dotY : α) (drawColor : String)
    (drawWidth : α) : List (Prim α) :=
  if !connParams.LineIsVisible then []
  else
    let dotStyle := connParams.Style.Dot
    if !dotStyle.StopAtDot then
      -- Case 1: line does NOT stop at dot - straight line element -> axis point
      [.connectorSegment target connParams.X1 connParams.Y1 connParams.X2 connParams.Y2
        drawColor drawWidth]
    else
      -- Case 2: line STOPS at dot
      let dotOffsetCross : α := (dotStyle.OffsetCross : α)
      let elementOffsetCross := connParams.ElementCrossOffset
      let isDogleg := 1 / 1000 ≤ |dotOffsetCross| ∨ 1 / 1000 ≤ |elementOffsetCross|
      if isDogleg then
        -- Subcase 2a: dogleg element -> midpoint -> dot
        let midPointX := if connParams.IsHorizontal then connParams.X1 else dotX
        let midPointY := if connParams.IsHorizontal then dotY else connParams.Y1
        [.connectorSegment target connParams.X1 connParams.Y1 midPointX midPointY
            drawColor drawWidth,
          .connectorSegment target midPointX midPointY dotX dotY drawColor drawWidth]
      else
        -- Subcase 2b: single line element -> dot, avoiding a zero-length line
        let isZeroLengthStop :=
          |dotX - connParams.X1| < 1 / 1000 ∧ |dotY - connParams.Y1| < 1 / 1000
        let finalEndX := if isZeroLengthStop then connParams.X2 else dotX
        let finalEndY := if isZeroLengthStop then connParams.Y2 else dotY
        [.connectorSegment target connParams.X1 connParams.Y1 finalEndX finalEndY
          drawColor drawWidth]

/-- `drawConnectorDot`: the decorative dot shape, if visible. -/
def drawConnectorDot {α : Type} [LinearOrderedField α] (target : ConnTarget)
    (dotStyle : DotStyle) (defaultColor : String) (isHorizontal : Bool)
    (crossAxisDir : α) (dotX dotY : α) : List (Prim α) :=
  if !dotStyle.Visible ∨ dotStyle.Shape = "none" ∨ dotStyle.Size ≤ 0 then []
  else
    let dotSize : α := (dotStyle.Size : α)
    let halfDotSize := dotSize / 2
    let dotColor := if dotStyle.Color = "" then defaultColor else dotStyle.Color
    if dotStyle.Shape = "circle" then
      [.connectorDotCircle target dotX dotY halfDotSize dotColor]
    else if dotStyle.Shape = "square" then
      [.connectorDotSquare target (dotX - halfDotSize) (dotY - halfDotSize) dotSize dotSize
        dotColor]
    else if dotStyle.Shape = "arrow" then
      if isHorizontal then
        [.connectorDotArrow target (dotX - halfDotSize, dotY) (dotX + halfDotSize, dotY)
          (dotX, dotY - crossAxisDir * halfDotSize * (12 / 10)) dotColor]
      else
        [.connectorDotArrow target (dotX, dotY - halfDotSize) (dotX, dotY + halfDotSize)
          (dotX - crossAxisDir * halfDotSize * (12 / 10), dotY) dotColor]
    else []

/-- `drawConnector`: orchestrates line segments plus the dot. -/
def drawConnector {α : Type} [LinearOrderedField α] (sqrt : α → α) (target : ConnTarget)
    (params : ConnectorParams α) : List (Prim α) :=
  let attrs := calculateConnectorStyleAttributes params.Style params.SegmentColor
  let vecs := calculateConnectorVectors sqrt params.X1 params.Y1 params.X2 params.Y2
  let dotStyle := params.Style.Dot
  let dotPos := calculateConnectorDotPosition params.X2 params.Y2 vecs.1 vecs.2.1
    vecs.2.2.1 vecs.2.2.2.1 dotStyle
  drawConnectorLineSegments target params dotPos.1 dotPos.2 attrs.1 attrs.2 ++
    drawConnectorDot target dotStyle attrs.1 params.IsHorizontal params.CrossAxisDir
      dotPos.1 dotPos.2

/-! ## Year element (part_003, `drawYearElement`, `drawYearShape`) -/

structure YearShapeParams (α : Type) where
  ShapeType : String
  ShapeParams : List (String × ℚ)
  CenterX : α
  CenterY : α
  TextWidth : α
  TextHeight : α
  YearStyle : YearTextStyle α

def drawYearShape {α : Type} [LinearOrderedField α] (params : YearShapeParams α) :
    List (Prim α) :=
  if params.ShapeType = "circle" then
    -- Go map access: a missing key reads as 0
    let radius : α := ((paramsLookup params.ShapeParams "r").getD 0 : ℚ)
    if radius < 0 then
      -- auto radius from text dimensions plus default internal padding
      let textHalfWidth := params.TextWidth / 2
      let textHalfHeight := params.TextHeight / 2
      let r1 := max textHalfWidth textHalfHeight + 4
      let r2 := if r1 < 4 * (3 / 2) then 4 * (3 / 2) else r1
      [.yearShapeCircle params.CenterX params.CenterY r2 params.YearStyle.FillColor
        params.YearStyle.BorderColor params.YearStyle.BorderWidth]
    else if radius = 0 then []
    else
      [.yearShapeCircle params.CenterX params.CenterY radius params.YearStyle.FillColor
        params.YearStyle.BorderColor params.YearStyle.BorderWidth]
  else if params.ShapeType = "rectangle" then
    let rectW : α := ((paramsLookup params.ShapeParams "w").getD 0 : ℚ)
    let rectH : α := ((paramsLookup params.ShapeParams "h").getD 0 : ℚ)
    if 0 < rectW ∧ 0 < rectH then
      [.yearShapeRect (params.CenterX - rectW / 2) (params.CenterY - rectH / 2) rectW rectH
        params.YearStyle.FillColor params.YearStyle.BorderColor params.YearStyle.BorderWidth]
    else []
  else []

/-- `drawYearElement`: on a shape-string parse error the shape type is replaced
by "none" (a warning is logged) and drawing continues; the year text itself is
always emitted. -/
def drawYearElement {α : Type} [LinearOrderedField α] (entry : TimelineEntry α)
    (yearStyle : YearTextStyle α) (centerX centerY : α) : List (Prim α) :=
  let yearStr := entry.Period
  let yearWidth : α := estimateTextSVGWidth yearStr yearStyle.Font
  let yearHeight : α := getEstimatedHeight yearStyle.Font
  let parsed := parseShapeString yearStyle.Shape
  let shapeType := match parsed.2.2 with
    | some _ => "none"   -- error: skip shape, keep going
    | none => parsed.1
  drawYearShape
    { ShapeType := shapeType
      ShapeParams := parsed.2.1
      CenterX := centerX
      CenterY := centerY
      TextWidth := yearWidth
      TextHeight := yearHeight
      YearStyle := yearStyle } ++
    [.yearText centerX centerY yearStr yearStyle.Font yearStyle.TextColor]

/-! ## Junction marker (part_003, `drawJunctionMarker`, `determineMarkerColor`) -/

def determineMarkerColor {α : Type} (markerStyle : JunctionMarkerStyle α)
    (segmentColor : String) (connStyle : ConnectorStyle) : String :=
  match markerStyle.Color with
  | some c => c
  | none => if connStyle.Color ≠ "" then connStyle.Color else segmentColor

structure JunctionMarkerParams (α : Type) where
  Style : JunctionMarkerStyle α
  CenterX : α
  CenterY : α
  MarkerColor : String
  IsHorizontal : Bool
  CenterLineWidth : α

def drawJunctionMarker {α : Type} [LinearOrderedField α]
    (params : JunctionMarkerParams α) : List (Prim α) :=
  if params.Style.Shape = "none" ∨ params.Style.Size ≤ 0 then []
  else
    let halfSize := params.Style.Size / 2
    if params.Style.Shape = "arrow" ∨ params.Style.Shape = "diamond" then
      let pts :=
        if params.IsHorizontal then
          ((params.CenterX, params.CenterY + halfSize),
            (params.CenterX - halfSize, params.CenterY),
            (params.CenterX + halfSize, params.CenterY),
            (params.CenterX, params.CenterY - halfSize))
        else
          ((params.CenterX + halfSize, params.CenterY),
            (params.CenterX, params.CenterY - halfSize),
            (params.CenterX, params.CenterY + halfSize),
            (params.CenterX - halfSize, params.CenterY))
      [.markerPolygon pts.1 pts.2.1 pts.2.2.1 params.MarkerColor,
        .markerPolygon pts.2.2.2 pts.2.1 pts.2.2.1 params.MarkerColor]
    else if params.Style.Shape = "circle" then
      [.markerCircle params.CenterX params.CenterY halfSize params.MarkerColor]
    else []

/-! ## Element placement (part_003, `calculateElementCenter`) -/

structure ElementCenterParams (α : Type) where
  AxisX : α
  AxisY : α
  MainOffset : α
  CrossOffset : α
  ConnectorLen : α
  CrossDir : α
  IsHorizontal : Bool

def calculateElementCenter {α : Type} [LinearOrderedField α]
    (params : ElementCenterParams α) : α × α :=
  if params.IsHorizontal then
    (params.AxisX + params.MainOffset,
      params.AxisY + params.CrossDir * (params.ConnectorLen + params.CrossOffset))
  else
    (params.AxisX + params.CrossDir * (params.ConnectorLen + params.CrossOffset),
      params.AxisY + params.MainOffset)

/-! ## Comment block layout (part_003) -/

structure CommentParams (α : Type) where
  Style : CommentTextStyle α
  AnchorX : α
  AnchorY : α
  CrossAxisDir : α
  IsHorizontal : Bool
  SegmentWidth : α
  DefaultColor : String
  TitleText : String
  BodyText : String
  ImageURL : String

structure CommentBlockLayout (α : Type) where
  blockX : α
  blockY : α
  visualBlockWidth : α
  visualBlockHeight : α
  contentCenterX : α
  titleTextAbsY : α
  titleLineAbsY : α
  bodyAbsX : α
  bodyAbsY : α
  foHeight : α
  padTop : α
  padRight : α
  padBottom : α
  padLeft : α
  contentWidth : α

def imagePlaceholderHeight : ℚ := 50

def foreignObjectHeightEstimate : ℚ := 100

def calculateForeignObjectHeight {α : Type} [LinearOrderedField α]
    (bodyText imageURL : String) : α :=
  if bodyText = "" ∧ imageURL = "" then 0
  else if bodyText = "" ∧ imageURL ≠ "" then (imagePlaceholderHeight : α) + 10
  else (foreignObjectHeightEstimate : α)

def calculateBlockPosition {α : Type} [LinearOrderedField α]
    (anchorX anchorY blockWidth totalHeight crossAxisDir : α) (isHorizontal : Bool) :
    α × α :=
  if isHorizontal then
    (anchorX - blockWidth / 2,
      if crossAxisDir < 0 then anchorY - totalHeight else anchorY)
  else
    ((if crossAxisDir < 0 then anchorX - blockWidth else anchorX),
      anchorY - totalHeight / 2)

def calculateCommentBlockLayout {α : Type} [LinearOrderedField α]
    (params : CommentParams α) : CommentBlockLayout α :=
  let pp := parsePadding params.Style.Padding
  let padTop : α := (pp.1 : α)
  let padRight : α := (pp.2.1 : α)
  let padBottom : α := (pp.2.2.1 : α)
  let padLeft : α := (pp.2.2.2 : α)
  let titleFont := params.Style.TitleFont
  let titleLine := params.Style.TitleLine
  -- title text position and height
  let relY0 := padTop
  let titleTextRelY := if params.TitleText ≠ "" then relY0 else 0
  let estTitleHeight : α :=
    if params.TitleText ≠ "" then getEstimatedHeight titleFont else 0
  let estTitleWidth0 : α :=
    if params.TitleText ≠ "" then estimateTextSVGWidth params.TitleText titleFont else 0
  let relY1 := if params.TitleText ≠ "" then relY0 + estTitleHeight else relY0
  -- title line position and height
  let titleLineActive := titleLine.Visible ∧ 0 < titleLine.Width ∧ 0 < titleLine.Length
  let titleLineRelY := if titleLineActive then relY1 + titleLine.Margin else 0
  let relY2 :=
    if titleLineActive then relY1 + titleLine.Margin + titleLine.Width + titleLine.Margin
    else relY1
  let estTitleWidth :=
    if titleLineActive then max estTitleWidth0 titleLine.Length else estTitleWidth0
  let bodyRelY := relY2
  let foHeight : α := calculateForeignObjectHeight params.BodyText params.ImageURL
  -- visual block dimensions
  let contentWidth0 : α := match params.Style.BlockWidth with
    | some bw => if 0 < bw then bw else estTitleWidth
    | none => estTitleWidth
  let contentWidth := if contentWidth0 < 0 then 0 else contentWidth0
  let visualBlockWidth := contentWidth + padLeft + padRight
  let visualBlockHeight := relY2 + foHeight + padBottom
  let blockPos := calculateBlockPosition params.AnchorX params.AnchorY visualBlockWidth
    visualBlockHeight params.CrossAxisDir params.IsHorizontal
  { blockX := blockPos.1
    blockY := blockPos.2
    visualBlockWidth := visualBlockWidth
    visualBlockHeight := visualBlockHeight
    contentCenterX := blockPos.1 + padLeft + contentWidth / 2
    titleTextAbsY := blockPos.2 + titleTextRelY
    titleLineAbsY := blockPos.2 + titleLineRelY
    bodyAbsX := blockPos.1 + padLeft
    bodyAbsY := blockPos.2 + bodyRelY
    foHeight := foHeight
    padTop := padTop
    padRight := padRight
    padBottom := padBottom
    padLeft := padLeft
    contentWidth := contentWidth }

def calculateCommentEdgePoint {α : Type} [LinearOrderedField α]
    (layout : CommentBlockLayout α) (crossAxisDir : α) (isHorizontal : Bool) : α × α :=
  if isHorizontal then
    if crossAxisDir < 0 then
      (layout.blockX + layout.visualBlockWidth / 2, layout.blockY)
    else
      (layout.blockX + layout.visualBlockWidth / 2, layout.blockY + layout.visualBlockHeight)
  else
    if crossAxisDir < 0 then
      (layout.blockX, layout.blockY + layout.visualBlockHeight / 2)
    else
      (layout.blockX + layout.visualBlockWidth, layout.blockY + layout.visualBlockHeight / 2)

def drawCommentBackground {α : Type} [LinearOrderedField α] (style : CommentTextStyle α)
    (layout : CommentBlockLayout α) : List (Prim α) :=
  if style.Shape = "rectangle" then
    [.commentBackground layout.blockX layout.blockY layout.visualBlockWidth
      layout.visualBlockHeight
      (if style.FillColor = "" then "none" else style.FillColor)
      (if style.BorderColor = "" then "none" else style.BorderColor)]
  else []

/-- `drawComment`: background, title text, decorative title line, body. -/
def drawComment {α : Type} [LinearOrderedField α] (params : CommentParams α) :
    List (Prim α) :=
  let titleFont := params.Style.TitleFont
  let titleLine := params.Style.TitleLine
  let textColor := if params.Style.TextColor = "" then params.DefaultColor
    else params.Style.TextColor
  let titleColor := if params.Style.TitleColor = "" then textColor
    else params.Style.TitleColor
  let blockLayout := calculateCommentBlockLayout params
  drawCommentBackground params.Style blockLayout ++
    (if params.TitleText ≠ "" then
      [.commentTitleText blockLayout.contentCenterX blockLayout.titleTextAbsY
        params.TitleText titleFont titleColor]
    else []) ++
    (if params.TitleText ≠ "" ∧ titleLine.Visible ∧ 0 < titleLine.Length ∧
        0 < titleLine.Width then
      [.commentTitleRule (blockLayout.contentCenterX - titleLine.Length / 2)
        (blockLayout.contentCenterX + titleLine.Length / 2) blockLayout.titleLineAbsY
        titleLine.Color titleLine.Width]
    else []) ++
    (if 0 < blockLayout.foHeight then
      [.commentBody blockLayout.bodyAbsX blockLayout.bodyAbsY blockLayout.contentWidth
        blockLayout.foHeight params.BodyText params.ImageURL]
    else [])

/-! ## Per-entry drawing (part_003, `drawTimelineEntry`)

The source looks each entry's effective styles up in pre-computed arrays; the
embedding passes the same five values as arguments (the arrays in
`TimelinePositionData` are built with exactly the calls used below in
`generateSVG`). -/

/-- Effective orientation for one specific entry (`drawTimelineEntry`, top). -/
def entryEffectiveIsHorizontal {α : Type} (entry : TimelineEntry α)
    (isHorizontal : Bool) : Bool :=
  match entry.OrientationOverride with
  | some o =>
    if o = "horizontal" then true
    else if o = "vertical" then false
    else isHorizontal
  | none => isHorizontal

/-- Cross-axis directions (comment, year): alternate by index parity, then
overridden wholesale by an explicit connector side. -/
def entryCrossDirs {α : Type} [LinearOrderedField α] (i : ℕ)
    (connStyle : ConnectorStyle) (effectiveIsHorizontal : Bool) : α × α :=
  let baseDirs : α × α := if i % 2 ≠ 0 then (-1, 1) else (1, -1)
  if connStyle.Side ≠ "" then
    if (effectiveIsHorizontal ∧ connStyle.Side = "top") ∨
        (¬effectiveIsHorizontal ∧ connStyle.Side = "left") then (-1, 1)
    else if (effectiveIsHorizontal ∧ connStyle.Side = "bottom") ∨
        (¬effectiveIsHorizontal ∧ connStyle.Side = "right") then (1, -1)
    else baseDirs
  else baseDirs

/-- The junction-marker block of `drawTimelineEntry`. -/
def entryMarkerPrims {α : Type} [LinearOrderedField α] (connStyle : ConnectorStyle)
    (markerStyle : JunctionMarkerStyle α) (segmentColor : String)
    (entryAxisX entryAxisY : α) (effectiveIsHorizontal : Bool)
    (config : LayoutConfig α) : List (Prim α) :=
  drawJunctionMarker
    { Style := markerStyle, CenterX := entryAxisX, CenterY := entryAxisY
      MarkerColor := determineMarkerColor markerStyle segmentColor connStyle
      IsHorizontal := effectiveIsHorizontal, CenterLineWidth := config.centerLineWidth }

/-- The year element's anchor point (`drawTimelineEntry`, year element). -/
def entryYearCenter {α : Type} [LinearOrderedField α] (yearStyle : YearTextStyle α)
    (entryAxisX entryAxisY : α) (yearCrossAxisDir : α) (effectiveIsHorizontal : Bool)
    (config : LayoutConfig α) : α × α :=
  calculateElementCenter
    { AxisX := entryAxisX, AxisY := entryAxisY
      MainOffset := yearStyle.MainAxisOffset, CrossOffset := yearStyle.CrossAxisOffset
      ConnectorLen := config.defaultConnectorLength, CrossDir := yearCrossAxisDir
      IsHorizontal := effectiveIsHorizontal }

/-- The axis-to-year connector block of `drawTimelineEntry` (drawn only when
`draw_to_period` is unset or true). -/
def entryYearConnectorPrims {α : Type} [LinearOrderedField α] (sqrt : α → α)
    (connStyle : ConnectorStyle) (yearStyle : YearTextStyle α) (segmentColor : String)
    (entryAxisX entryAxisY : α) (yearCrossAxisDir : α) (effectiveIsHorizontal : Bool)
    (config : LayoutConfig α) : List (Prim α) :=
  let yearCenter := entryYearCenter yearStyle entryAxisX entryAxisY yearCrossAxisDir
    effectiveIsHorizontal config
  let drawPeriodLine := match connStyle.DrawToPeriod with
    | none => true
    | some b => b
  if drawPeriodLine then
    drawConnector sqrt .period
      { X1 := yearCenter.1, Y1 := yearCenter.2, X2 := entryAxisX, Y2 := entryAxisY
        Style := connStyle, SegmentColor := segmentColor
        IsHorizontal := effectiveIsHorizontal, CrossAxisDir := yearCrossAxisDir
        LineIsVisible := drawPeriodLine
        ElementCrossOffset := yearStyle.CrossAxisOffset }
  else []

/-- The comment block of `drawTimelineEntry`: axis-to-comment connector plus
the comment block, produced only when the entry has any comment content. -/
def entryCommentPrims {α : Type} [LinearOrderedField α] (sqrt : α → α)
    (entry : TimelineEntry α) (connStyle : ConnectorStyle)
    (commentStyle : CommentTextStyle α) (segmentColor : String)
    (entryAxisX entryAxisY : α) (commentCrossAxisDir : α)
    (effectiveIsHorizontal : Bool) (config : LayoutConfig α) : List (Prim α) :=
  if entry.CommentText ≠ "" ∨ entry.TitleText ≠ "" ∨ entry.CommentImage ≠ "" then
    let commentAnchor := calculateElementCenter
      { AxisX := entryAxisX, AxisY := entryAxisY
        MainOffset := commentStyle.MainAxisOffset
        CrossOffset := commentStyle.CrossAxisOffset
        ConnectorLen := config.defaultConnectorLength, CrossDir := commentCrossAxisDir
        IsHorizontal := effectiveIsHorizontal }
    let cparams : CommentParams α :=
      { Style := commentStyle, AnchorX := commentAnchor.1, AnchorY := commentAnchor.2
        CrossAxisDir := commentCrossAxisDir, IsHorizontal := effectiveIsHorizontal
        SegmentWidth := config.defaultEntrySpacing, DefaultColor := connStyle.Color
        TitleText := entry.TitleText, BodyText := entry.CommentText
        ImageURL := entry.CommentImage }
    let blockLayout := calculateCommentBlockLayout cparams
    let edge := calculateCommentEdgePoint blockLayout commentCrossAxisDir
      effectiveIsHorizontal
    let drawCommentLine := match connStyle.DrawToComment with
      | none => true
      | some b => b
    drawConnector sqrt .comment
      { X1 := edge.1, Y1 := edge.2, X2 := entryAxisX, Y2 := entryAxisY
        Style := connStyle, SegmentColor := segmentColor
        IsHorizontal := effectiveIsHorizontal, CrossAxisDir := commentCrossAxisDir
        LineIsVisible := drawCommentLine
        ElementCrossOffset := commentStyle.CrossAxisOffset } ++
      drawComment cparams
  else []

def drawTimelineEntry {α : Type} [LinearOrderedField α] (sqrt : α → α) (i : ℕ)
    (entry : TimelineEntry α) (connStyle : ConnectorStyle)
    (commentStyle : CommentTextStyle α) (yearStyle : YearTextStyle α)
    (markerStyle : JunctionMarkerStyle α) (segmentColor : String)
    (entryAxisX entryAxisY : α) (isHorizontal : Bool) (config : LayoutConfig α) :
    List (Prim α) :=
  let effectiveIsHorizontal := entryEffectiveIsHorizontal entry isHorizontal
  let dirs : α × α := entryCrossDirs i connStyle effectiveIsHorizontal
  let commentCrossAxisDir := dirs.1
  let yearCrossAxisDir := dirs.2
  let yearCenter := entryYearCenter yearStyle entryAxisX entryAxisY yearCrossAxisDir
    effectiveIsHorizontal config
  entryMarkerPrims connStyle markerStyle segmentColor entryAxisX entryAxisY
      effectiveIsHorizontal config ++
    entryYearConnectorPrims sqrt connStyle yearStyle segmentColor entryAxisX entryAxisY
      yearCrossAxisDir effectiveIsHorizontal config ++
    drawYearElement entry yearStyle yearCenter.1 yearCenter.2 ++
    entryCommentPrims sqrt entry connStyle commentStyle segmentColor entryAxisX
      entryAxisY commentCrossAxisDir effectiveIsHorizontal config

/-- An entry with the three comment-content fields blanked out. -/
def stripCommentContent {α : Type} (e : TimelineEntry α) : TimelineEntry α :=
  { e with TitleText := "", CommentText := "", CommentImage := "" }

/-! ## Axis geometry (part_003, `calculateAxisGeometry`), over `ℝ` because the
source computes with `math.Cos`/`math.Sin`. -/

structure AxisGeom where
  nx1 : ℝ
  ny1 : ℝ
  nx2 : ℝ
  ny2 : ℝ
  effectiveAngleDeg : ℝ

noncomputable def calculateAxisGeometry (x1 y1 length : ℝ) (orientation : String)
    (globalAngle overrideAngle : Option ℝ) : AxisGeom :=
  let baseAngleDeg : ℝ := if orientation = "vertical" then 90 else 0
  let afterGlobal := match globalAngle with
    | some a => a
    | none => baseAngleDeg
  let effectiveAngleDeg := match overrideAngle with
    | some a => a
    | none => afterGlobal
  let effectiveAngleRad := effectiveAngleDeg * Real.pi / 180
  { nx1 := x1
    ny1 := y1
    nx2 := x1 + length * Real.cos effectiveAngleRad
    ny2 := y1 + length * Real.sin effectiveAngleRad
    effectiveAngleDeg := effectiveAngleDeg }

/-! ## GenerateSVG phase 1 (part_003 lines 1555-1601)

The walk records, for each entry, the current axis position at its loop turn
(the entry axis point), then advances by the following segment (whose length
is the junction-offset difference and whose angle override is the *next*
entry's).  The initial segment, of length `junctionPoints[0]`, is walked
before the loop. -/

noncomputable def walkEntryAxisPoints (orientation : String) (globalAngle : Option ℝ) :
    List (TimelineEntry ℝ) → List ℝ → ℝ × ℝ → List (ℝ × ℝ) × List AxisGeom
  | [], _, _ => ([], [])
  | [_], _, p => ([p], [])
  | _ :: e2 :: rest, j1 :: j2 :: js, p =>
    let g := calculateAxisGeometry p.1 p.2 (j2 - j1) orientation globalAngle
      e2.AngleOverride
    let r := walkEntryAxisPoints orientation globalAngle (e2 :: rest) (j2 :: js)
      (g.nx2, g.ny2)
    (p :: r.1, g :: r.2)
  | _ :: _ :: _, _, p => ([p], [])

/-- The entry axis points of `GenerateSVG` phase 1. -/
noncomputable def phase1EntryAxisPoints (template : Template ℝ)
    (entries : List (TimelineEntry ℝ)) : List (ℝ × ℝ) :=
  let config := initializeLayoutConfig template
  let data := calculateTimelinePositionsAndStyles entries template config
  let firstOverride := match entries with
    | e :: _ => e.AngleOverride
    | [] => none
  let initial := calculateAxisGeometry 0 0 (data.junctionPoints.headD 0)
    template.CenterLine.Orientation template.CenterLine.Angle firstOverride
  (walkEntryAxisPoints template.CenterLine.Orientation template.CenterLine.Angle entries
    data.junctionPoints (initial.nx2, initial.ny2)).1

/-- The axis segments of `GenerateSVG` phases 1-2 (initial segment first). -/
noncomputable def phase1AxisSegments (template : Template ℝ)
    (entries : List (TimelineEntry ℝ)) : List AxisGeom :=
  let config := initializeLayoutConfig template
  let data := calculateTimelinePositionsAndStyles entries template config
  let firstOverride := match entries with
    | e :: _ => e.AngleOverride
    | [] => none
  let initial := calculateAxisGeometry 0 0 (data.junctionPoints.headD 0)
    template.CenterLine.Orientation template.CenterLine.Angle firstOverride
  initial :: (walkEntryAxisPoints template.CenterLine.Orientation
    template.CenterLine.Angle entries data.junctionPoints (initial.nx2, initial.ny2)).2

/-! ## GenerateSVG (part_003 lines 1540-1639) -/

noncomputable def generateSVG (template : Template ℝ)
    (entries : List (TimelineEntry ℝ)) : Except String (List (Prim ℝ)) :=
  if entries.length = 0 then .error "no timeline entries to generate"
  else
    let isHorizontal := template.CenterLine.Orientation = "horizontal"
    let config := initializeLayoutConfig template
    let data := calculateTimelinePositionsAndStyles entries template config
    let axisPrims := ((phase1AxisSegments template entries).zip data.segmentColors).map
      (fun sc => Prim.axisSegment sc.1.nx1 sc.1.ny1 sc.1.nx2 sc.1.ny2
        (if sc.2 = "" then config.centerLineBaseColor else sc.2)
        config.centerLineWidth template.CenterLine.Type' template.CenterLine.RoundedCaps)
    let entryPrims := ((entries.enum).zip (phase1EntryAxisPoints template entries)).map
      (fun ip =>
        let i := ip.1.1
        let entry := ip.1.2
        drawTimelineEntry Real.sqrt i entry
          (getEffectiveConnectorStyle template.PeriodDefaults.Connector
            entry.ConnectorOverride)
          (getEffectiveCommentTextStyle template.GlobalFont
            template.PeriodDefaults.CommentText entry.CommentTextOverride)
          (getEffectiveYearTextStyle template.GlobalFont template.PeriodDefaults.YearText
            entry.YearTextOverride)
          (getEffectiveJunctionMarkerStyle template.PeriodDefaults.JunctionMarker
            entry.JunctionMarkerOverride)
          (let c := (getEffectiveCenterlineProjectionStyle
              template.PeriodDefaults.CenterlineProjection
              entry.CenterlineProjectionOverride).Color
            if c = "" then config.centerLineBaseColor else c)
          ip.2.1 ip.2.2 isHorizontal config)
    .ok (axisPrims ++ entryPrims.flatten)

/-! ## Input validation in the driver (main.go) -/

def mainValidateInputs {α : Type} (template : Template α)
    (entries : List (TimelineEntry α)) : Except String Unit :=
  if template.CenterLine.Orientation ≠ "horizontal" ∧
      template.CenterLine.Orientation ≠ "vertical" then
    .error "Template error: center_line.orientation must be horizontal or vertical"
  else if entries.length = 0 then
    .error "Data error: no timeline entries found"
  else .ok ()

/-- The driver run: validate the parsed inputs, then generate. -/
noncomputable def runProgram (template : Template ℝ)
    (entries : List (TimelineEntry ℝ)) : Except String (List (Prim ℝ)) :=
  match mainValidateInputs template entries with
  | .error e => .error e
  | .ok _ => generateSVG template entries

/-! ## Concrete inputs used by witness theorems -/

def emptyFontOverride : FontStyleOverride :=
  { FontFamily := none, FontSize := none, FontWeight := none, FontStyle := none }

def emptyDotOverride : DotStyleOverride :=
  { Size := none, Color := none, Shape := none, Visible := none, OffsetMain := none
    OffsetCross := none, StopAtDot := none }

def plainFont : FontStyle :=
  { FontFamily := "serif", FontSize := 14, FontWeight := "bold", FontStyle := "italic" }

/-- A dot template default whose boolean flags are unset (the Go zero value
`false`), as happens when `template.json` omits them. -/
def unsetDotDefaults : DotStyle :=
  { Size := 8, Color := "", Shape := "circle", Visible := false, OffsetMain := 0
    OffsetCross := 0, StopAtDot := false }

def sampleEntry : TimelineEntry ℚ :=
  { Period := "1999", TitleText := "", CommentText := "", CommentImage := "", Link := ""
    EntrySpacingOverride := none, OrientationOverride := none, AngleOverride := none
    ConnectorOverride := none, CommentTextOverride := none, YearTextOverride := none
    CenterlineProjectionOverride := none, JunctionMarkerOverride := none }

def badShapeYearStyle : YearTextStyle ℚ :=
  { Position := "", MainAxisOffset := 0, CrossAxisOffset := 0, TextColor := "#000000"
    Font := plainFont, Shape := "rectangle;w=5", FillColor := "", BorderColor := ""
    BorderWidth := 1 }

def titleLineDefaultsOnOff : TitleLineStyle ℚ :=
  { Visible := true, Color := "", Width := 0, Length := 0, Margin := 0 }

def emptyTitleLineOverride : TitleLineStyleOverride ℚ :=
  { Visible := none, Color := none, Width := none, Length := none, Margin := none }

/-- Connector parameters producing a dogleg: `stop_at_dot` true and a dot
cross-offset of 5 (the end-to-end scenario from the specification). -/
def doglegConnParams : ConnectorParams ℚ :=
  { X1 := 30, Y1 := 60, X2 := 30, Y2 := 0
    Style :=
      { DrawToPeriod := none, DrawToComment := none, Width := 1, Color := "#888888"
        LineType := "solid", Side := ""
        Dot :=
          { Size := 8, Color := "", Shape := "circle", Visible := true, OffsetMain := 0
            OffsetCross := 5, StopAtDot := true } }
    SegmentColor := "#000000", IsHorizontal := true, CrossAxisDir := 1
    LineIsVisible := true, ElementCrossOffset := 0 }

def sampleBounds : Bounds ℚ :=
  { minX := 0, maxX := 10, minY := 0, maxY := 10, isSet := true }

def sampleUpdates : List (BoundsUpdate ℚ) :=
  [.point 25 (-3), .rect 4 4 2 2, .rect 1 1 0 5]

def sampleEntryR : TimelineEntry ℝ :=
  { Period := "1999", TitleText := "", CommentText := "", CommentImage := "", Link := ""
    EntrySpacingOverride := none, OrientationOverride := none, AngleOverride := none
    ConnectorOverride := none, CommentTextOverride := none, YearTextOverride := none
    CenterlineProjectionOverride := none, JunctionMarkerOverride := none }

def plainPeriodDefaults : PeriodStyle ℝ :=
  { YearText :=
      { Position := "", MainAxisOffset := 0, CrossAxisOffset := 0, TextColor := ""
        Font := { FontFamily := "", FontSize := 0, FontWeight := "", FontStyle := "" }
        Shape := "", FillColor := "", BorderColor := "", BorderWidth := 0 }
    Connector :=
      { DrawToPeriod := none, DrawToComment := none, Width := 1, Color := ""
        LineType := "", Side := ""
        Dot :=
          { Size := 0, Color := "", Shape := "", Visible := false, OffsetMain := 0
            OffsetCross := 0, StopAtDot := false } }
    CommentText :=
      { Position := "", MainAxisOffset := 0, CrossAxisOffset := 0
        Font := { FontFamily := "", FontSize := 0, FontWeight := "", FontStyle := "" }
        TitleFont :=
          { FontFamily := "", FontSize := 0, FontWeight := "", FontStyle := "" }
        TitleLine :=
          { Visible := false, Color := "", Width := 0, Length := 0, Margin := 0 }
        TitleColor := "", Shape := "", FillColor := "", TextColor := "", Padding := ""
        BlockWidth := none, BorderColor := "", BorderWidth := 0, BorderStyle := ""
        TextAlign := "" }
    CenterlineProjection := { Color := "" }
    JunctionMarker := { Shape := "", Size := 0, Color := none } }

def badOrientationTemplate : Template ℝ :=
  { CenterLine :=
      { Width := 2, Type' := "solid", Orientation := "diagonal", Angle := none
        Color := "#000000", RoundedCaps := false }
    Layout := { Padding := 50, EntrySpacing := 100, ConnectorLength := 50 }
    GlobalFont := none
    PeriodDefaults := plainPeriodDefaults }

/-- The end-to-end scenario of C3: a horizontal template with no global angle
and `entry_spacing = 100`. -/
def horizontalTemplate100 : Template ℝ :=
  { CenterLine :=
      { Width := 2, Type' := "solid", Orientation := "horizontal", Angle := none
        Color := "#000000", RoundedCaps := false }
    Layout := { Padding := 50, EntrySpacing := 100, ConnectorLength := 50 }
    GlobalFont := none
    PeriodDefaults := plainPeriodDefaults }

/-- Three entries with no overrides (the C3 scenario). -/
def threeEntries : List (TimelineEntry ℝ) := [sampleEntryR, sampleEntryR, sampleEntryR]

/-- The claim wording of C1 for one boolean style field, to compare with the
source resolvers: override value if explicitly set, else the template-default
value when it is non-zero (for a boolean: true), else the hard-coded
fallback. -/
def claimedBoolCascade (override : Option Bool) (templateDefault fallback : Bool) :
    Bool :=
  match override with
  | some b => b
  | none => if templateDefault then templateDefault else fallback

/-- The font-family cascade of C1 as the source implements it below the
override layer: template default if non-empty, else global font if present and
non-empty, else the hard-coded default. -/
def fontFamilyCascade (global : Option FontStyle) (defaults : FontStyle) : String :=
  if defaults.FontFamily ≠ "" then defaults.FontFamily
  else
    match global with
    | some g => if g.FontFamily ≠ "" then g.FontFamily else defaultFont
    | none => defaultFont

def fontSizeCascade (global : Option FontStyle) (defaults : FontStyle) : Int :=
  if defaults.FontSize ≠ 0 then defaults.FontSize
  else
    match global with
    | some g => if g.FontSize ≠ 0 then g.FontSize else defaultFontSize
    | none => defaultFontSize

def fontWeightCascade (global : Option FontStyle) (defaults : FontStyle) : String :=
  if defaults.FontWeight ≠ "" then defaults.FontWeight
  else
    match global with
    | some g => if g.FontWeight ≠ "" then g.FontWeight else "normal"
    | none => "normal"

def fontStyleCascade (global : Option FontStyle) (defaults : FontStyle) : String :=
  if defaults.FontStyle ≠ "" then defaults.FontStyle
  else
    match global with
    | some g => if g.FontStyle ≠ "" then g.FontStyle else "normal"
    | none => "normal"

/-! # Theorems -/

/-! ## C9: padding-string parsing -/

/-- C9: Padding-string parsing follows CSS shorthand rules with non-numeric
tokens defaulting to 0: one token v gives (v,v,v,v), two tokens (a,b) give
(a,b,a,b), three tokens (a,b,c) give (a,b,c,b), four tokens give
(top,right,bottom,left); in particular "10" gives (10,10,10,10),
"10 20" gives (10,20,10,20), "5 10 15 20" gives (5,10,15,20), and
"abc" gives (0,0,0,0). -/
theorem C9_parsePadding_css_shorthand :
    (∀ s a, paddingTokenValues s = [a] → parsePadding s = (a, a, a, a)) ∧
    (∀ s a b, paddingTokenValues s = [a, b] → parsePadding s = (a, b, a, b)) ∧
    (∀ s a b c, paddingTokenValues s = [a, b, c] → parsePadding s = (a, b, c, b)) ∧
    (∀ s a b c d, paddingTokenValues s = [a, b, c, d] → parsePadding s = (a, b, c, d)) ∧
    parsePadding "10" = (10, 10, 10, 10) ∧
    parsePadding "10 20" = (10, 20, 10, 20) ∧
    parsePadding "5 10 15 20" = (5, 10, 15, 20) ∧
    parsePadding "abc" = (0, 0, 0, 0) := by
  have hempty : paddingTokenValues "" = [] := by with_unfolding_all rfl
  refine ⟨?_, ?_, ?_, ?_, by with_unfolding_all rfl, by with_unfolding_all rfl,
      by with_unfolding_all rfl, by with_unfolding_all rfl⟩ <;>
    intro s <;> intros <;>
    (by_cases hs : s = "" <;> simp_all [parsePadding, hempty])

/-- C9 witness: the general token-shape clauses applied at a concrete input. -/
theorem C9_parsePadding_css_shorthand_witness :
    parsePadding "5 10 15 20" = (5, 10, 15, 20) :=
  C9_parsePadding_css_shorthand.2.2.2.1 "5 10 15 20" 5 10 15 20
    (by with_unfolding_all rfl)

/-! ## C8: shape-string parsing and caller fallback -/

/-- C8: Shape-string parsing satisfies: "circle;r=10" yields type "circle"
with parameter r=10 and no error; "circle;r=auto" yields r=-1 as the sentinel
for auto; a circle missing parameter r or a rectangle missing w or h (e.g.,
"rectangle;w=5") yields an error; and when parsing errors, the caller
(`drawYearElement`) treats the shape as "none" and still produces the year
text, so layout continues without failing. -/
theorem C8_parseShapeString_and_fallback :
    parseShapeString "circle;r=10" = ("circle", [("r", 10)], none) ∧
    parseShapeString "circle;r=auto" = ("circle", [("r", -1)], none) ∧
    parseShapeString "circle" = ("circle", [], some (ShapeErr.missingParam "r" "circle")) ∧
    parseShapeString "rectangle;w=5" =
      ("rectangle", [("w", 5)], some (ShapeErr.missingParam "h" "rectangle")) ∧
    (∀ (α : Type) (_ : LinearOrderedField α) (entry : TimelineEntry α)
      (yearStyle : YearTextStyle α) (cx cy : α), yearStyle.Shape = "rectangle;w=5" →
      drawYearElement entry yearStyle cx cy =
        [Prim.yearText cx cy entry.Period yearStyle.Font yearStyle.TextColor]) := by
  refine ⟨by with_unfolding_all rfl, by with_unfolding_all rfl, by with_unfolding_all rfl,
    by with_unfolding_all rfl, ?_⟩
  intro α inst entry yearStyle cx cy h
  have hp : parseShapeString "rectangle;w=5" =
      ("rectangle", [("w", 5)], some (ShapeErr.missingParam "h" "rectangle")) := by
    with_unfolding_all rfl
  have hc : ("none" : String) ≠ "circle" := by decide
  have hr : ("none" : String) ≠ "rectangle" := by decide
  simp [drawYearElement, h, hp, drawYearShape, hc, hr]

/-- C8 witness: the caller-fallback clause applied at a concrete entry whose
year shape string is the malformed "rectangle;w=5". -/
theorem C8_parseShapeString_and_fallback_witness :
    drawYearElement sampleEntry badShapeYearStyle 0 0 =
      [Prim.yearText 0 0 sampleEntry.Period badShapeYearStyle.Font
        badShapeYearStyle.TextColor] :=
  C8_parseShapeString_and_fallback.2.2.2.2 ℚ inferInstance sampleEntry badShapeYearStyle
    0 0 rfl

/-! ## C7: bounds never shrink -/

lemma applyBoundsUpdate_step {α : Type} [LinearOrderedField α] (b : Bounds α)
    (u : BoundsUpdate α) (hb : b.isSet = true) :
    (applyBoundsUpdate b u).isSet = true ∧
    (applyBoundsUpdate b u).minX ≤ b.minX ∧ (applyBoundsUpdate b u).minY ≤ b.minY ∧
    b.maxX ≤ (applyBoundsUpdate b u).maxX ∧ b.maxY ≤ (applyBoundsUpdate b u).maxY := by
  have hpt : ∀ (c : Bounds α) (x y : α), c.isSet = true →
      (c.updatePoint x y).isSet = true ∧
      (c.updatePoint x y).minX ≤ c.minX ∧ (c.updatePoint x y).minY ≤ c.minY ∧
      c.maxX ≤ (c.updatePoint x y).maxX ∧ c.maxY ≤ (c.updatePoint x y).maxY := by
    intro c x y hc
    simp [Bounds.updatePoint, hc, min_le_left, le_max_left]
  cases u with
  | point x y => exact hpt b x y hb
  | rect x y w h =>
    by_cases hwh : 0 < w ∧ 0 < h
    · have h1 := hpt b x y hb
      have h2 := hpt (b.updatePoint x y) (x + w) (y + h) h1.1
      refine ⟨?_, ?_, ?_, ?_, ?_⟩ <;>
        simp only [applyBoundsUpdate, Bounds.updateRect, if_pos hwh]
      · exact h2.1
      · exact le_trans h2.2.1 h1.2.1
      · exact le_trans h2.2.2.1 h1.2.2.1
      · exact le_trans h1.2.2.2.1 h2.2.2.2.1
      · exact le_trans h1.2.2.2.2 h2.2.2.2.2
    · simp [applyBoundsUpdate, Bounds.updateRect, hwh, hb]

/-- C7: For every sequence of bounds updates (points or rectangles) applied to
an already-set bounds accumulator, the bounds never shrink (the new minX/minY
are never larger, the new maxX/maxY never smaller), and the isSet flag stays
true. -/
theorem C7_bounds_monotone :
    ∀ (α : Type) (_ : LinearOrderedField α) (b : Bounds α)
      (us : List (BoundsUpdate α)), b.isSet = true →
    (us.foldl applyBoundsUpdate b).isSet = true ∧
    (us.foldl applyBoundsUpdate b).minX ≤ b.minX ∧
    (us.foldl applyBoundsUpdate b).minY ≤ b.minY ∧
    b.maxX ≤ (us.foldl applyBoundsUpdate b).maxX ∧
    b.maxY ≤ (us.foldl applyBoundsUpdate b).maxY := by
  intro α inst b us hb
  induction us generalizing b with
  | nil => exact ⟨hb, le_refl _, le_refl _, le_refl _, le_refl _⟩
  | cons u rest ih =>
    have h1 := applyBoundsUpdate_step b u hb
    have h2 := ih (applyBoundsUpdate b u) h1.1
    simp only [List.foldl_cons]
    exact ⟨h2.1, le_trans h2.2.1 h1.2.1, le_trans h2.2.2.1 h1.2.2.1,
      le_trans h1.2.2.2.1 h2.2.2.2.1, le_trans h1.2.2.2.2 h2.2.2.2.2⟩

/-- C7 witness: a concrete set bounds value and update sequence. -/
theorem C7_bounds_monotone_witness :
    (sampleUpdates.foldl applyBoundsUpdate sampleBounds).isSet = true ∧
    (sampleUpdates.foldl applyBoundsUpdate sampleBounds).minX ≤ sampleBounds.minX ∧
    (sampleUpdates.foldl applyBoundsUpdate sampleBounds).minY ≤ sampleBounds.minY ∧
    sampleBounds.maxX ≤ (sampleUpdates.foldl applyBoundsUpdate sampleBounds).maxX ∧
    sampleBounds.maxY ≤ (sampleUpdates.foldl applyBoundsUpdate sampleBounds).maxY :=
  C7_bounds_monotone ℚ inferInstance sampleBounds sampleUpdates rfl

/-! ## C2: derived title-rule visibility -/

/-- C2 counterexample: with a template default of `visible = true` and zero
width/length, and an override object that sets nothing, the resolved
visibility is `true` although neither the resolved width nor the resolved
length is positive — so visibility is not equivalent to both dimensions being
positive. -/
theorem C2_title_rule_visibility_counterexample :
    (getEffectiveTitleLineStyle titleLineDefaultsOnOff
      (some emptyTitleLineOverride)).Visible = true ∧
    ¬(0 < (getEffectiveTitleLineStyle titleLineDefaultsOnOff
        (some emptyTitleLineOverride)).Width ∧
      0 < (getEffectiveTitleLineStyle titleLineDefaultsOnOff
        (some emptyTitleLineOverride)).Length) := by
  constructor
  · with_unfolding_all rfl
  · intro hcon
    have : ¬((0 : ℚ) < 0) := lt_irrefl 0
    exact this (by
      have hw : (getEffectiveTitleLineStyle titleLineDefaultsOnOff
          (some emptyTitleLineOverride)).Width = 0 := by with_unfolding_all rfl
      exact hw ▸ hcon.1)

/-- C2 amended: when a title-line override object is present and does not
explicitly set the visible flag, resolved visibility is true iff both the
resolved width and the resolved length are positive OR the template default
flag is true; when no override object is present the template default is
returned unchanged (visibility is not recomputed). -/
theorem C2_title_rule_visibility_amended :
    ∀ (α : Type) (_ : LinearOrderedField α) (d : TitleLineStyle α)
      (o : TitleLineStyleOverride α),
    getEffectiveTitleLineStyle d none = d ∧
    (getEffectiveTitleLineStyle d (some o)).Visible =
      (match o.Visible with
        | some v => v
        | none =>
          if 0 < (getEffectiveTitleLineStyle d (some o)).Width ∧
              0 < (getEffectiveTitleLineStyle d (some o)).Length then true
          else d.Visible) := by
  intro α inst d o
  refine ⟨rfl, ?_⟩
  cases hv : o.Visible with
  | some v => simp [getEffectiveTitleLineStyle, hv, getBool]
  | none =>
    by_cases hc : 0 < getFloat64 o.Width d.Width ∧ 0 < getFloat64 o.Length d.Length
    · simp [getEffectiveTitleLineStyle, hv, hc]
    · by_cases hd : d.Visible <;>
        simp [getEffectiveTitleLineStyle, hv, hc, hd, getBool]

/-! ## C1: three-layer style cascade -/

lemma getString_eq_getD (p : Option String) (d : String) : getString p d = p.getD d := by
  cases p <;> rfl

lemma getInt_eq_getD (p : Option Int) (d : Int) : getInt p d = p.getD d := by
  cases p <;> rfl

lemma getBool_eq_getD (p : Option Bool) (d : Bool) : getBool p d = p.getD d := by
  cases p <;> rfl

lemma getFloat64_eq_getD {α : Type} (p : Option α) (d : α) : getFloat64 p d = p.getD d := by
  cases p <;> rfl

/-- C1 counterexample.  The claimed cascade resolves a field from the override
field value and the template default alone (with a fixed hard-coded fallback),
so for the dot's `visible` flag left unset by the override layer it must give
the same answer whether or not a dot override object is present.  The code
does not: with the template default unset (`false`), the resolved flag is
`false` when no dot override object exists but `true` when an empty one does.
Whichever value the claimed hard-coded fallback has, one conjunct below
contradicts it (`claimedBoolCascade` is the claim's cascade).  Additionally,
an override that explicitly sets the font family to the empty string does not
win: the result is the hard-coded "sans-serif", not the explicitly set value. -/
theorem C1_cascade_counterexample :
    (getEffectiveDotStyle unsetDotDefaults none).Visible ≠
      claimedBoolCascade none unsetDotDefaults.Visible true ∧
    (getEffectiveDotStyle unsetDotDefaults (some emptyDotOverride)).Visible ≠
      claimedBoolCascade none unsetDotDefaults.Visible false ∧
    (getEffectiveFontStyle none plainFont
        (some { emptyFontOverride with FontFamily := some "" })).FontFamily =
      "sans-serif" := by
  refine ⟨by decide, by decide, by with_unfolding_all rfl⟩

/-- C1 amended: the resolved effective style value equals the override value
when the override explicitly sets the field (including an explicit false or 0
— except that an explicitly empty font family falls back to "sans-serif");
otherwise, for font fields, the template default when non-empty/non-zero, else
the global font value, else the hard-coded fallback; for the other fields the
template default is used as-is, with one exception: when the corresponding
override *object* is present, the dot's `visible` and `stop_at_dot` flags and
the connector's draw-to flags fall back to true instead of the template
default's unset false.  When the override object is absent the template
default is returned verbatim. -/
theorem C1_cascade_amended :
    (∀ (g : Option FontStyle) (d : FontStyle) (o : FontStyleOverride),
      (getEffectiveFontStyle g d (some o)).FontFamily =
        (match o.FontFamily with
          | some f => if f = "" then "sans-serif" else f
          | none => fontFamilyCascade g d) ∧
      (getEffectiveFontStyle g d (some o)).FontSize =
        (match o.FontSize with
          | some n => n
          | none => fontSizeCascade g d) ∧
      (getEffectiveFontStyle g d (some o)).FontWeight =
        (match o.FontWeight with
          | some w => w
          | none => fontWeightCascade g d) ∧
      (getEffectiveFontStyle g d (some o)).FontStyle =
        (match o.FontStyle with
          | some st => st
          | none => fontStyleCascade g d)) ∧
    (∀ (g : Option FontStyle) (d : FontStyle),
      getEffectiveFontStyle g d none =
        { FontFamily := fontFamilyCascade g d, FontSize := fontSizeCascade g d
          FontWeight := fontWeightCascade g d, FontStyle := fontStyleCascade g d }) ∧
    (∀ (d : DotStyle), getEffectiveDotStyle d none = d) ∧
    (∀ (d : DotStyle) (o : DotStyleOverride),
      getEffectiveDotStyle d (some o) =
        { Size := o.Size.getD d.Size, Color := o.Color.getD d.Color
          Shape := o.Shape.getD d.Shape, Visible := o.Visible.getD true
          OffsetMain := o.OffsetMain.getD d.OffsetMain
          OffsetCross := o.OffsetCross.getD d.OffsetCross
          StopAtDot := o.StopAtDot.getD true }) ∧
    (∀ (d : ConnectorStyle), getEffectiveConnectorStyle d none = d) ∧
    (∀ (d : ConnectorStyle) (o : ConnectorStyleOverride),
      getEffectiveConnectorStyle d (some o) =
        { DrawToPeriod := some (o.DrawToPeriod.getD (d.DrawToPeriod.getD true))
          DrawToComment := some (o.DrawToComment.getD (d.DrawToComment.getD true))
          Width := o.Width.getD d.Width, Color := o.Color.getD d.Color
          LineType := o.LineType.getD d.LineType, Side := d.Side
          Dot := getEffectiveDotStyle d.Dot o.Dot }) := by
  refine ⟨?_, ?_, ?_, ?_, ?_, ?_⟩
  · intro g d o
    refine ⟨?_, ?_, ?_, ?_⟩
    · cases hov : o.FontFamily <;> cases g <;>
        simp only [getEffectiveFontStyle, fontFamilyCascade, getString, getInt, hov,
          apply_ite (FontStyle.FontFamily), ne_eq, ite_not] <;>
        split_ifs <;> simp_all [defaultFont]
    · cases hov : o.FontSize <;> cases g <;>
        simp only [getEffectiveFontStyle, fontSizeCascade, getString, getInt, hov,
          apply_ite (FontStyle.FontSize), ne_eq, ite_not] <;>
        split_ifs <;> simp_all [defaultFontSize, defaultFont]
    · cases hov : o.FontWeight <;> cases g <;>
        simp only [getEffectiveFontStyle, fontWeightCascade, getString, getInt, hov,
          apply_ite (FontStyle.FontWeight), ne_eq, ite_not] <;>
        split_ifs <;> simp_all [defaultFont]
    · cases hov : o.FontStyle <;> cases g <;>
        simp only [getEffectiveFontStyle, fontStyleCascade, getString, getInt, hov,
          apply_ite (FontStyle.FontStyle), ne_eq, ite_not] <;>
        split_ifs <;> simp_all [defaultFont]
  · intro g d
    cases g <;>
      simp only [getEffectiveFontStyle, fontFamilyCascade, fontSizeCascade,
        fontWeightCascade, fontStyleCascade, ne_eq, ite_not, FontStyle.mk.injEq] <;>
      split_ifs <;> simp_all [defaultFont, defaultFontSize, FontStyle.mk.injEq]
  · intro d
    rfl
  · intro d o
    simp only [getEffectiveDotStyle, getInt_eq_getD, getString_eq_getD, getBool_eq_getD]
  · intro d
    rfl
  · intro d o
    cases hp : d.DrawToPeriod <;> cases hc : d.DrawToComment <;>
      simp [getEffectiveConnectorStyle, hp, hc, getInt_eq_getD, getString_eq_getD,
        getBool_eq_getD]

/-! ## C4: per-segment effective angle and endpoint -/

/-- C4: the effective angle of an axis segment is the entry-level override
when present, else the global fixed angle when present, else 0 degrees for
horizontal orientation and 90 degrees for vertical; and the segment endpoint
equals its start plus length times (cos θ, sin θ) with θ that angle in
radians. -/
theorem C4_axis_angle_and_endpoint :
    ∀ (x1 y1 length : ℝ) (orientation : String) (globalAngle overrideAngle : Option ℝ),
    (orientation = "horizontal" →
      (calculateAxisGeometry x1 y1 length orientation globalAngle
          overrideAngle).effectiveAngleDeg =
        (match overrideAngle, globalAngle with
          | some a, _ => a
          | none, some a => a
          | none, none => 0)) ∧
    (orientation = "vertical" →
      (calculateAxisGeometry x1 y1 length orientation globalAngle
          overrideAngle).effectiveAngleDeg =
        (match overrideAngle, globalAngle with
          | some a, _ => a
          | none, some a => a
          | none, none => 90)) ∧
    (calculateAxisGeometry x1 y1 length orientation globalAngle overrideAngle).nx1 = x1 ∧
    (calculateAxisGeometry x1 y1 length orientation globalAngle overrideAngle).ny1 = y1 ∧
    (calculateAxisGeometry x1 y1 length orientation globalAngle overrideAngle).nx2 =
      x1 + length * Real.cos ((calculateAxisGeometry x1 y1 length orientation globalAngle
        overrideAngle).effectiveAngleDeg * Real.pi / 180) ∧
    (calculateAxisGeometry x1 y1 length orientation globalAngle overrideAngle).ny2 =
      y1 + length * Real.sin ((calculateAxisGeometry x1 y1 length orientation globalAngle
        overrideAngle).effectiveAngleDeg * Real.pi / 180) := by
  intro x1 y1 length orientation ga oa
  refine ⟨?_, ?_, rfl, rfl, rfl, rfl⟩ <;>
    (intro ho; subst ho) <;> cases oa <;> cases ga <;> simp [calculateAxisGeometry]

/-- C4 witness: horizontal orientation with an entry-level override of 30
degrees. -/
theorem C4_axis_angle_and_endpoint_witness :
    (calculateAxisGeometry 1 2 10 "horizontal" none (some 30)).effectiveAngleDeg = 30 :=
  (C4_axis_angle_and_endpoint 1 2 10 "horizontal" none (some 30)).1 rfl

/-! ## C5: connector routing with stop-at-dot -/

/-- C5: for every visible connector segment set whose effective stop-at-dot
flag is true: when both the dot cross-offset magnitude and the element
cross-offset magnitude are below the epsilon 0.001, exactly one straight
segment is drawn from the element anchor to the dot position, substituting
the axis anchor as endpoint when the element-anchor-to-dot segment would have
(epsilon-)zero length; otherwise a dogleg of exactly two segments is drawn
through an elbow sharing the element's primary coordinate (its X when the
layout is horizontal, its Y when vertical) and the dot's secondary
coordinate. -/
theorem C5_stop_at_dot_routing :
    ∀ (α : Type) (_ : LinearOrderedField α) (target : ConnTarget)
      (p : ConnectorParams α) (dotX dotY : α) (color : String) (w : α),
    p.LineIsVisible = true → p.Style.Dot.StopAtDot = true →
    ((|(p.Style.Dot.OffsetCross : α)| < 1 / 1000 ∧ |p.ElementCrossOffset| < 1 / 1000 →
      drawConnectorLineSegments target p dotX dotY color w =
        (if |dotX - p.X1| < 1 / 1000 ∧ |dotY - p.Y1| < 1 / 1000 then
          [Prim.connectorSegment target p.X1 p.Y1 p.X2 p.Y2 color w]
        else [Prim.connectorSegment target p.X1 p.Y1 dotX dotY color w])) ∧
    (¬(|(p.Style.Dot.OffsetCross : α)| < 1 / 1000 ∧ |p.ElementCrossOffset| < 1 / 1000) →
      drawConnectorLineSegments target p dotX dotY color w =
        [Prim.connectorSegment target p.X1 p.Y1
            (if p.IsHorizontal then p.X1 else dotX)
            (if p.IsHorizontal then dotY else p.Y1) color w,
          Prim.connectorSegment target
            (if p.IsHorizontal then p.X1 else dotX)
            (if p.IsHorizontal then dotY else p.Y1) dotX dotY color w])) := by
  intro α inst target p dotX dotY color w hvis hstop
  constructor
  · intro h
    have hno : ¬((1 : α) / 1000 ≤ |(p.Style.Dot.OffsetCross : α)| ∨
        (1 : α) / 1000 ≤ |p.ElementCrossOffset|) := by
      rw [not_or]
      exact ⟨not_le.mpr h.1, not_le.mpr h.2⟩
    simp only [drawConnectorLineSegments, hvis, hstop, Bool.not_true, Bool.false_eq_true,
      if_false, if_neg hno]
    split_ifs <;> simp_all
  · intro h
    have hyes : (1 : α) / 1000 ≤ |(p.Style.Dot.OffsetCross : α)| ∨
        (1 : α) / 1000 ≤ |p.ElementCrossOffset| := by
      rcases not_and_or.mp h with h1 | h1
      · exact Or.inl (not_lt.mp h1)
      · exact Or.inr (not_lt.mp h1)
    simp only [drawConnectorLineSegments, hvis, hstop, Bool.not_true, Bool.false_eq_true,
      if_false, if_pos hyes]

/-- C5 witness: the spec's end-to-end scenario — `dot.offset_cross = 5`,
`stop_at_dot = true` — routes as a dogleg of exactly two segments. -/
theorem C5_stop_at_dot_routing_witness :
    drawConnectorLineSegments ConnTarget.comment doglegConnParams 35 5 "#888888" 1 =
      [Prim.connectorSegment ConnTarget.comment 30 60 30 5 "#888888" 1,
        Prim.connectorSegment ConnTarget.comment 30 5 35 5 "#888888" 1] :=
  (C5_stop_at_dot_routing ℚ inferInstance ConnTarget.comment doglegConnParams 35 5
    "#888888" 1 rfl rfl).2 (by norm_num [doglegConnParams])

/-! ## C6: structural input errors are fatal and precede layout -/

/-- C6: an empty entry list, or an orientation that is neither "horizontal"
nor "vertical", makes the run fail with an error reported to the caller
before any layout work: the driver validation rejects both, so the run
produces no primitive list; and `GenerateSVG` itself rejects an empty entry
list before computing any geometry. -/
theorem C6_structural_errors_fatal :
    ∀ (template : Template ℝ) (entries : List (TimelineEntry ℝ)),
    entries = [] ∨ (template.CenterLine.Orientation ≠ "horizontal" ∧
      template.CenterLine.Orientation ≠ "vertical") →
    (∃ msg, runProgram template entries = Except.error msg) ∧
    (∀ prims, runProgram template entries ≠ Except.ok prims) ∧
    (entries = [] →
      generateSVG template entries = Except.error "no timeline entries to generate") := by
  intro t entries h
  have hval : ∃ msg, mainValidateInputs t entries = Except.error msg := by
    rcases h with he | ho
    · by_cases hor : t.CenterLine.Orientation ≠ "horizontal" ∧
        t.CenterLine.Orientation ≠ "vertical"
      · exact ⟨_, by rw [mainValidateInputs, if_pos hor]⟩
      · subst he
        refine ⟨"Data error: no timeline entries found", ?_⟩
        simp [mainValidateInputs, hor]
    · exact ⟨_, by rw [mainValidateInputs, if_pos ho]⟩
  rcases hval with ⟨m, hm⟩
  refine ⟨⟨m, by simp only [runProgram, hm]⟩, ?_, ?_⟩
  · intro prims hcon
    simp only [runProgram, hm] at hcon
    exact Except.noConfusion hcon
  · intro he
    subst he
    simp [generateSVG]

/-- C6 witness: a template with orientation "diagonal". -/
theorem C6_structural_errors_fatal_witness :
    ∃ msg, runProgram badOrientationTemplate [sampleEntryR] = Except.error msg :=
  (C6_structural_errors_fatal badOrientationTemplate [sampleEntryR]
    (Or.inr ⟨by decide, by decide⟩)).1

/-! ## C3: junction points and entry anchors of the horizontal walk -/

/-- C3, code evaluated at the failing input (horizontal template,
`entry_spacing = 100`, three entries with no overrides): the 1-D position
arrays hold the claimed junction offsets 0,100,200,300 and midpoint entry
offsets 50,150,250, but the phase-1 walk of `GenerateSVG` — whose initial
segment has length `junctionPoints[0] = 0` and which never reads
`entryPoints` — places the entry axis points (where junction markers,
connectors and elements are anchored) at X = 0, 100, 200, the junction
boundaries, not at the midpoints 50, 150, 250 the claim (and the computed
`entryPoints`) call for. -/
theorem C3_entry_anchor_eval :
    (calculateTimelinePositionsAndStyles threeEntries horizontalTemplate100
      (initializeLayoutConfig horizontalTemplate100)).junctionPoints =
        [0, 100, 200, 300] ∧
    (calculateTimelinePositionsAndStyles threeEntries horizontalTemplate100
      (initializeLayoutConfig horizontalTemplate100)).entryPoints = [50, 150, 250] ∧
    phase1EntryAxisPoints horizontalTemplate100 threeEntries =
      [(0, 0), (100, 0), (200, 0)] := by
  have hne : ¬ (("horizontal" : String) = "vertical") := by decide
  refine ⟨?_, ?_, ?_⟩ <;>
    norm_num [calculateTimelinePositionsAndStyles, junctionEntryPoints,
      resolveEntrySpacing, initializeLayoutConfig, horizontalTemplate100, threeEntries,
      sampleEntryR, plainPeriodDefaults, phase1EntryAxisPoints, walkEntryAxisPoints,
      calculateAxisGeometry, Real.cos_zero, Real.sin_zero, hne]

/-! ## C10: entries without comment content produce no comment primitives -/

lemma isCommentSide_connectorSegments {α : Type} [LinearOrderedField α]
    (target : ConnTarget) (cp : ConnectorParams α) (dotX dotY : α) (c : String) (w : α)
    (p : Prim α) (hp : p ∈ drawConnectorLineSegments target cp dotX dotY c w) :
    p.isCommentSide = decide (target = ConnTarget.comment) := by
  simp only [drawConnectorLineSegments] at hp
  split_ifs at hp <;> simp at hp <;>
    first
      | (rcases hp with rfl | rfl <;> cases target <;> simp [Prim.isCommentSide])
      | (subst hp; cases target <;> simp [Prim.isCommentSide])

lemma isCommentSide_connectorDot {α : Type} [LinearOrderedField α]
    (target : ConnTarget) (ds : DotStyle) (c : String) (ih : Bool) (dir dotX dotY : α)
    (p : Prim α) (hp : p ∈ drawConnectorDot target ds c ih dir dotX dotY) :
    p.isCommentSide = decide (target = ConnTarget.comment) := by
  simp only [drawConnectorDot] at hp
  split_ifs at hp <;> simp at hp <;>
    first
      | (rcases hp with rfl | rfl <;> cases target <;> simp [Prim.isCommentSide])
      | (subst hp; cases target <;> simp [Prim.isCommentSide])

lemma isCommentSide_connector {α : Type} [LinearOrderedField α] (sqrt : α → α)
    (target : ConnTarget) (params : ConnectorParams α) :
    ∀ p ∈ drawConnector sqrt target params,
      p.isCommentSide = decide (target = ConnTarget.comment) := by
  intro p hp
  rcases List.mem_append.mp hp with hseg | hdot
  · exact isCommentSide_connectorSegments target params _ _ _ _ p hseg
  · exact isCommentSide_connectorDot target _ _ _ _ _ _ p hdot

lemma isCommentSide_marker {α : Type} [LinearOrderedField α]
    (params : JunctionMarkerParams α) :
    ∀ p ∈ drawJunctionMarker params, p.isCommentSide = false := by
  intro p hp
  simp only [drawJunctionMarker] at hp
  split_ifs at hp <;> simp at hp <;>
    first
      | (rcases hp with rfl | rfl <;> simp [Prim.isCommentSide])
      | (subst hp; simp [Prim.isCommentSide])

lemma isCommentSide_yearShape {α : Type} [LinearOrderedField α]
    (params : YearShapeParams α) :
    ∀ p ∈ drawYearShape params, p.isCommentSide = false := by
  intro p hp
  simp only [drawYearShape] at hp
  split_ifs at hp <;> simp at hp <;>
    first
      | (rcases hp with rfl | rfl <;> simp [Prim.isCommentSide])
      | (subst hp; simp [Prim.isCommentSide])

lemma isCommentSide_yearElement {α : Type} [LinearOrderedField α]
    (entry : TimelineEntry α) (yearStyle : YearTextStyle α) (cx cy : α) :
    ∀ p ∈ drawYearElement entry yearStyle cx cy, p.isCommentSide = false := by
  intro p hp
  simp only [drawYearElement] at hp
  rcases List.mem_append.mp hp with hshape | htext
  · exact isCommentSide_yearShape _ p hshape
  · simp at htext
    subst htext
    simp [Prim.isCommentSide]

lemma isCommentSide_drawComment {α : Type} [LinearOrderedField α]
    (params : CommentParams α) :
    ∀ p ∈ drawComment params, p.isCommentSide = true := by
  intro p hp
  simp only [drawComment, drawCommentBackground] at hp
  simp only [List.mem_append] at hp
  rcases hp with ((hbg | htitle) | hrule) | hbody <;>
    (split_ifs at * <;> simp_all <;>
      first
        | (subst p; simp [Prim.isCommentSide])
        | simp_all [Prim.isCommentSide])

lemma isCommentSide_entryMarker {α : Type} [LinearOrderedField α]
    (connStyle : ConnectorStyle) (markerStyle : JunctionMarkerStyle α)
    (segmentColor : String) (ax ay : α) (effH : Bool) (config : LayoutConfig α) :
    ∀ p ∈ entryMarkerPrims connStyle markerStyle segmentColor ax ay effH config,
      p.isCommentSide = false :=
  fun p hp => isCommentSide_marker _ p hp

lemma isCommentSide_entryYearConnector {α : Type} [LinearOrderedField α] (sqrt : α → α)
    (connStyle : ConnectorStyle) (yearStyle : YearTextStyle α) (segmentColor : String)
    (ax ay : α) (ydir : α) (effH : Bool) (config : LayoutConfig α) :
    ∀ p ∈ entryYearConnectorPrims sqrt connStyle yearStyle segmentColor ax ay ydir effH
        config, p.isCommentSide = false := by
  intro p hp
  simp only [entryYearConnectorPrims] at hp
  split_ifs at hp
  · have := isCommentSide_connector sqrt ConnTarget.period _ p hp
    simpa using this
  · simp at hp

lemma isCommentSide_entryComment {α : Type} [LinearOrderedField α] (sqrt : α → α)
    (entry : TimelineEntry α) (connStyle : ConnectorStyle)
    (commentStyle : CommentTextStyle α) (segmentColor : String) (ax ay : α)
    (cdir : α) (effH : Bool) (config : LayoutConfig α) :
    ∀ p ∈ entryCommentPrims sqrt entry connStyle commentStyle segmentColor ax ay cdir
        effH config, p.isCommentSide = true := by
  intro p hp
  simp only [entryCommentPrims] at hp
  split_ifs at hp
  · rcases List.mem_append.mp hp with hconn | hcomm
    · have := isCommentSide_connector sqrt ConnTarget.comment _ p hconn
      simpa using this
    · exact isCommentSide_drawComment _ p hcomm
  · simp at hp

/-- C10: for every entry whose title text, comment body text, and comment
image reference are all empty, the generated primitives contain no
comment-side primitive (no comment background, title, title rule, body, and
no axis-to-comment connector segment or dot); the output equals exactly the
non-comment primitives produced for the same entry with arbitrary comment
content (so the year element, its connector, and its junction marker are
unaffected); and the year text primitive is always present. -/
theorem C10_empty_comment_suppression :
    ∀ (α : Type) (_ : LinearOrderedField α) (sqrt : α → α) (i : ℕ)
      (entry : TimelineEntry α) (connStyle : ConnectorStyle)
      (commentStyle : CommentTextStyle α) (yearStyle : YearTextStyle α)
      (markerStyle : JunctionMarkerStyle α) (segColor : String) (ax ay : α)
      (isH : Bool) (config : LayoutConfig α),
    ((drawTimelineEntry sqrt i (stripCommentContent entry) connStyle commentStyle
        yearStyle markerStyle segColor ax ay isH config).filter
          (fun p => p.isCommentSide) = [] ∧
      drawTimelineEntry sqrt i (stripCommentContent entry) connStyle commentStyle
          yearStyle markerStyle segColor ax ay isH config =
        (drawTimelineEntry sqrt i entry connStyle commentStyle yearStyle markerStyle
          segColor ax ay isH config).filter (fun p => !p.isCommentSide) ∧
      ∃ x y, Prim.yearText x y entry.Period yearStyle.Font yearStyle.TextColor ∈
        drawTimelineEntry sqrt i (stripCommentContent entry) connStyle commentStyle
          yearStyle markerStyle segColor ax ay isH config) := by
  intro α inst sqrt i entry connStyle commentStyle yearStyle markerStyle segColor ax ay
    isH config
  have hstripE : entryEffectiveIsHorizontal (stripCommentContent entry) isH =
      entryEffectiveIsHorizontal entry isH := rfl
  have hstripY : ∀ (cx cy : α), drawYearElement (stripCommentContent entry) yearStyle
      cx cy = drawYearElement entry yearStyle cx cy := fun _ _ => rfl
  have hstripC : entryCommentPrims sqrt (stripCommentContent entry) connStyle
      commentStyle segColor ax ay
      (entryCrossDirs i connStyle (entryEffectiveIsHorizontal entry isH)).1
      (entryEffectiveIsHorizontal entry isH) config = [] := by
    simp [entryCommentPrims, stripCommentContent]
  have hmarker := isCommentSide_entryMarker connStyle markerStyle segColor ax ay
    (entryEffectiveIsHorizontal entry isH) config
  have hyconn := isCommentSide_entryYearConnector sqrt connStyle yearStyle segColor ax ay
    (entryCrossDirs i connStyle (entryEffectiveIsHorizontal entry isH)).2
    (entryEffectiveIsHorizontal entry isH) config
  have hyear := isCommentSide_yearElement entry yearStyle
    (entryYearCenter yearStyle ax ay
      (entryCrossDirs i connStyle (entryEffectiveIsHorizontal entry isH)).2
      (entryEffectiveIsHorizontal entry isH) config).1
    (entryYearCenter yearStyle ax ay
      (entryCrossDirs i connStyle (entryEffectiveIsHorizontal entry isH)).2
      (entryEffectiveIsHorizontal entry isH) config).2
  have hcomm := isCommentSide_entryComment sqrt entry connStyle commentStyle segColor
    ax ay (entryCrossDirs i connStyle (entryEffectiveIsHorizontal entry isH)).1
    (entryEffectiveIsHorizontal entry isH) config
  refine ⟨?_, ?_, ?_⟩
  · simp only [drawTimelineEntry]
    rw [hstripE, hstripY, hstripC]
    rw [List.append_nil, List.filter_append, List.filter_append,
      List.filter_eq_nil_iff.mpr (fun p hp => by simp [hmarker p hp]),
      List.filter_eq_nil_iff.mpr (fun p hp => by simp [hyconn p hp]),
      List.filter_eq_nil_iff.mpr (fun p hp => by simp [hyear p hp])]
    simp
  · simp only [drawTimelineEntry]
    rw [hstripE, hstripY, hstripC]
    rw [List.filter_append, List.filter_append, List.filter_append]
    rw [List.filter_eq_self.mpr (fun p hp => by simp [hmarker p hp]),
      List.filter_eq_self.mpr (fun p hp => by simp [hyconn p hp]),
      List.filter_eq_self.mpr (fun p hp => by simp [hyear p hp]),
      List.filter_eq_nil_iff.mpr (fun p hp => by simp [hcomm p hp])]
  · refine ⟨(entryYearCenter yearStyle ax ay
      (entryCrossDirs i connStyle (entryEffectiveIsHorizontal entry isH)).2
      (entryEffectiveIsHorizontal entry isH) config).1,
      (entryYearCenter yearStyle ax ay
        (entryCrossDirs i connStyle (entryEffectiveIsHorizontal entry isH)).2
        (entryEffectiveIsHorizontal entry isH) config).2, ?_⟩
    simp only [drawTimelineEntry]
    rw [hstripE, hstripY, hstripC]
    refine List.mem_append.mpr (Or.inl (List.mem_append.mpr (Or.inr ?_)))
    simp [drawYearElement]

end Timeline
